import Mathlib

/-!
Verification development for the fractal-explorer web application.

The JavaScript sources are shallowly embedded in Lean:
* purely rational arithmetic (clamps, cooldown bookkeeping, slider
  conversions, list picking) is modelled over `ℚ` — every JavaScript
  float literal appearing in those code paths is an exact decimal, so
  the rational model is executable and decidable;
* code paths that apply transcendental functions (`Math.log`,
  `Math.sin`, `Math.pow` with non-integral exponents, `Math.cos`) are
  modelled over `ℝ`;
* `Math.random()` results are threaded explicitly, either as a single
  rational argument or as a consumed list of rationals, in the exact
  order the source draws them;
* the worker boundary is modelled by message values and an explicit
  log of posted messages.
-/

set_option maxHeartbeats 1000000

/-! ## Shared math utilities (src/utils/math.js) -/

/-- Model of `lerp` from src/utils/math.js: `a + (b - a) * t`. -/
def lerp {α : Type} [Ring α] (a b t : α) : α := a + (b - a) * t

/-- Model of `clamp` from src/utils/math.js: `Math.min(max, Math.max(min, value))`. -/
def clamp {α : Type} [LinearOrder α] (value lo hi : α) : α := min hi (max lo value)

/-- Model of `randomRange` from src/utils/math.js with the `rng()` result passed
explicitly: `min + rng() * (max - min)`. -/
def randomRange {α : Type} [Ring α] (lo hi r : α) : α := lo + r * (hi - lo)

/-- Model of `pickFrom` from src/utils/math.js with the `rng()` result passed
explicitly: `array[Math.floor(rng() * array.length)]`.  JavaScript throws
on an empty array and yields `undefined` on an out-of-range index; both
are modelled by `none`. -/
def pickFrom {α : Type} (l : List α) (r : ℚ) : Option α :=
  l.get? (Int.toNat ⌊r * (l.length : ℚ)⌋)

/-- Model of `pickFrom` with a default for the (unreachable when `0 ≤ r < 1` on a
nonempty array) `undefined` outcome. -/
def pickFromD {α : Type} (l : List α) (dflt : α) (r : ℚ) : α :=
  (pickFrom l r).getD dflt

/-- Consume the next `Math.random()` result from an explicit stream
(`0` once the stream is exhausted). -/
def drawRand : List ℚ → ℚ × List ℚ
  | [] => (0, [])
  | r :: rest => (r, rest)

/-- Model of `easeInOut` from src/hooks/useFractalControls.js: `t * t * (3 - 2 * t)`. -/
def easeInOut (t : ℚ) : ℚ := t * t * (3 - 2 * t)

/-- Model of `Math.min(...list)` for a nonempty list (the empty case, `Infinity`
in JavaScript, is never reached by the modelled call sites). -/
def jsMin : List ℝ → ℝ
  | [] => 0
  | x :: xs => xs.foldl min x

/-- Model of `Math.max(...list)` for a nonempty list (the empty case, `-Infinity`
in JavaScript, is never reached by the modelled call sites). -/
def jsMax : List ℝ → ℝ
  | [] => 0
  | x :: xs => xs.foldl max x

/-! ## Configuration constants (src/config/fractalSettings.js) -/

def MIN_RENDER_INTERVAL : ℚ := 5

def ZOOM_SMOOTHING_FACTOR : ℚ := 0.85

def AUTO_ZOOM_MIN_PERCENT : ℚ := 1

def AUTO_ZOOM_MAX_PERCENT : ℚ := 100

def AUTO_ZOOM_MIN_SPEED : ℚ := 0.001

def AUTO_ZOOM_MAX_SPEED : ℚ := 0.018

def PALETTE_COOLDOWN_SECONDS : ℚ := 24

def VARIANT_COOLDOWN_SECONDS : ℚ := 32

def JULIA_COOLDOWN_SECONDS : ℚ := 20

def MUTATION_INTERVAL_MIN : ℚ := 12

def MUTATION_INTERVAL_MAX : ℚ := 20

def ZOOM_DIRECTION_COOLDOWN_SECONDS : ℚ := 6

def ZOOM_OUT_MAX_SECONDS : ℚ := 1.8

def FRACTAL_TYPE_COOLDOWN_SECONDS : ℚ := 26

def PALETTE_MUTATION_CHANCE : ℚ := 0.22

def INITIAL_VIEW_SCALE : ℚ := 0.9

def MAX_VIEW_SCALE : ℚ := 1.1

def MIN_VIEW_SCALE : ℚ := 0.00003

def FOCUS_INTERPOLATION : ℚ := 0.92

def FRACTAL_VARIANTS : List String :=
  ["classic", "cubic", "burning-ship", "perpendicular"]

def FRACTAL_PALETTES : List (List String) :=
  [["#ff6b6b", "#f06595", "#845ef7", "#5c7cfa", "#51cf66", "#ffd43b"],
   ["#f97316", "#e11d48", "#a855f7", "#6366f1", "#22d3ee", "#14b8a6"],
   ["#b91c1c", "#f97316", "#facc15", "#84cc16", "#22c55e", "#0ea5e9"],
   ["#f43f5e", "#d946ef", "#8b5cf6", "#6366f1", "#0ea5e9", "#06b6d4"],
   ["#fb7185", "#f9a8d4", "#c4b5fd", "#93c5fd", "#67e8f9", "#6ee7b7"],
   ["#f97316", "#fb7185", "#f472b6", "#a855f7", "#22d3ee", "#4ade80"]]

/-- One entry of `FOCUS_PRESETS`: a staged `{scale, center}` pair. -/
structure FocusPreset where
  scale : ℚ
  centerX : ℚ
  centerY : ℚ
deriving DecidableEq

def mandelbrotClassicPresets : List FocusPreset :=
  [⟨1.2, -0.5, 0⟩,
   ⟨0.35, -0.7453, 0.1127⟩,
   ⟨0.12, -1.25506, 0.3819⟩,
   ⟨0.045, -0.7746809, 0.1374169⟩,
   ⟨0.02, -0.7436438870371587, 0.13182590420531198⟩,
   ⟨0.0085, -0.745507, 0.112531⟩,
   ⟨0.0022, -0.743904, 0.131161⟩]

def mandelbrotCubicPresets : List FocusPreset :=
  [⟨1.2, -0.48, 0⟩,
   ⟨0.26, -0.389, 0.312⟩,
   ⟨0.082, -0.16, 0.652⟩,
   ⟨0.028, -0.06, 0.835⟩,
   ⟨0.009, -0.02, 0.91⟩]

def mandelbrotBurningShipPresets : List FocusPreset :=
  [⟨1.2, -1.75, -0.02⟩,
   ⟨0.22, -1.8, -0.1⟩,
   ⟨0.08, -1.73, -0.18⟩,
   ⟨0.028, -1.75488, -0.03⟩,
   ⟨0.009, -1.75465, -0.025⟩]

def mandelbrotPerpendicularPresets : List FocusPreset :=
  [⟨1.2, -0.123, -0.745⟩,
   ⟨0.28, -0.29, -0.62⟩,
   ⟨0.09, -0.44, -0.55⟩,
   ⟨0.032, -0.51, -0.48⟩,
   ⟨0.011, -0.538, -0.462⟩]

/-- Model of `FOCUS_PRESETS[fractalType]?.[variantKey]` — only the `mandelbrot`
key exists in the catalog; an unknown variant key yields `none`
(JavaScript `undefined`, which the caller replaces by `classic`). -/
def focusPresetsFor (fractalType variantKey : String) : Option (List FocusPreset) :=
  if fractalType = "mandelbrot" then
    if variantKey = "classic" then some mandelbrotClassicPresets
    else if variantKey = "cubic" then some mandelbrotCubicPresets
    else if variantKey = "burning-ship" then some mandelbrotBurningShipPresets
    else if variantKey = "perpendicular" then some mandelbrotPerpendicularPresets
    else none
  else none

/-- One entry of `SCENE_DEFINITIONS` (src/config/fractalSettings.js). -/
structure SceneDefinition where
  name : String
  durationRange : ℚ × ℚ
  zoomDirection : ℤ
  zoomSpeedRange : ℚ × ℚ
  targetScaleRange : ℚ × ℚ
  shiftIntensity : ℚ
  variantBias : List String
  paletteBias : List ℕ
deriving DecidableEq

def SCENE_DEFINITIONS : List SceneDefinition :=
  [⟨"deep-dive", (18, 26), -1, (0.0075, 0.013), (0.00018, 0.0012), 0.26,
    ["classic", "burning-ship"], [0, 2, 3]⟩,
   ⟨"breathing-bloom", (16, 24), 1, (0.004, 0.007), (0.8, 1.7), 0.18,
    ["cubic", "perpendicular"], [1, 4, 5]⟩,
   ⟨"cosmic-orbit", (20, 30), -1, (0.0055, 0.009), (0.004, 0.018), 0.4,
    ["classic"], [2, 3, 5]⟩]

/-! ## Control utilities (src/utils/fractalControls.js) -/

/-- Model of `pickSceneDefinition` from src/utils/fractalControls.js.  The
`excludeName ? … : …` truthiness test is modelled by `Option`
(the call sites pass either `null` or a nonempty scene name). -/
def pickSceneDefinition (excludeName : Option String)
    (scenes : List SceneDefinition) (r : ℚ) : Option SceneDefinition :=
  let options := match excludeName with
    | some e => scenes.filter (fun scene => scene.name ≠ e)
    | none => scenes
  pickFrom options r

/-- Model of `pickFocusTarget` from src/utils/fractalControls.js, with the two
potential `rng()` draws supplied as a stream.  Returns the focus
coordinate (or `none`) together with the unconsumed stream. -/
def pickFocusTarget (fractalType variant : String) (targetScale : ℚ)
    (rng : List ℚ) : Option (ℚ × ℚ) × List ℚ :=
  let variantKey := if variant = "" then "classic" else variant
  if fractalType ≠ "mandelbrot" then (none, rng)
  else
    let presetList := match focusPresetsFor fractalType variantKey with
      | some l => l
      | none => mandelbrotClassicPresets
    if presetList = [] then (none, rng)
    else
      let sorted := presetList.mergeSort (fun a b => a.scale ≤ b.scale)
      match sorted.find? (fun preset => targetScale ≤ preset.scale * 1.1) with
      | some preset =>
          let jitter := preset.scale * 0.18
          let (r1, rng1) := drawRand rng
          let (r2, rng2) := drawRand rng1
          (some (preset.centerX + (r1 - 0.5) * jitter,
                 preset.centerY + (r2 - 0.5) * jitter), rng2)
      | none =>
          let fallback := sorted.getLastD ⟨0, 0, 0⟩
          let jitter := fallback.scale * 0.2
          let (r1, rng1) := drawRand rng
          let (r2, rng2) := drawRand rng1
          (some (fallback.centerX + (r1 - 0.5) * jitter,
                 fallback.centerY + (r2 - 0.5) * jitter), rng2)

/-- Model of `autoZoomSpeedToPercent` from src/utils/fractalControls.js. -/
def autoZoomSpeedToPercent (speed : ℚ) : ℚ :=
  let clamped := clamp speed AUTO_ZOOM_MIN_SPEED AUTO_ZOOM_MAX_SPEED
  let ratio := (clamped - AUTO_ZOOM_MIN_SPEED) / (AUTO_ZOOM_MAX_SPEED - AUTO_ZOOM_MIN_SPEED)
  ratio * (AUTO_ZOOM_MAX_PERCENT - AUTO_ZOOM_MIN_PERCENT) + AUTO_ZOOM_MIN_PERCENT

/-- Model of `percentToAutoZoomSpeed` from src/utils/fractalControls.js. -/
def percentToAutoZoomSpeed (percent : ℚ) : ℚ :=
  let clamped := clamp percent AUTO_ZOOM_MIN_PERCENT AUTO_ZOOM_MAX_PERCENT
  let ratio := (clamped - AUTO_ZOOM_MIN_PERCENT) / (AUTO_ZOOM_MAX_PERCENT - AUTO_ZOOM_MIN_PERCENT)
  AUTO_ZOOM_MIN_SPEED + ratio * (AUTO_ZOOM_MAX_SPEED - AUTO_ZOOM_MIN_SPEED)

/-! ## Render engine (src/lib/fractalEngine.js)

The engine is generic over the composed render payload `α` and the
palette buffer `β`: `renderFrame` treats both opaquely, exactly as the
JavaScript class does.  `postMessage` calls are recorded in order in
the `posted` log; draws performed by `handleWorkerMessage` are recorded
in `draws`. -/

/-- The `{type:'render', width, height, ...payload}` worker message. -/
structure RenderMsg (α : Type) where
  width : ℕ
  height : ℕ
  payload : α
deriving DecidableEq

/-- A message posted to the compute worker. -/
inductive WireMsg (α β : Type) where
  | setPalette (colors : β)
  | render (msg : RenderMsg α)
deriving DecidableEq

/-- Whether a wire message is a render request. -/
def WireMsg.isRender {α β : Type} : WireMsg α β → Bool
  | .render _ => true
  | .setPalette _ => false

/-- A `{type:'render-result'}` message coming back from the worker;
`buffer` is `none` for a null buffer. -/
structure RenderResultMsg (γ : Type) where
  width : ℕ
  height : ℕ
  buffer : Option γ
deriving DecidableEq

/-- One animation-frame callback invocation: the timestamp, the canvas
size read at that moment, and the value returned by the
`computeRenderPayload` callback (`none` models `null`/`undefined`). -/
structure FrameInput (α : Type) where
  timestamp : ℚ
  width : ℕ
  height : ℕ
  payload : Option α
deriving DecidableEq

/-- The mutable fields of the `FractalEngine` instance that the frame
loop and the worker handler read or write (the drawing context is
modelled as always present: `initialize` throws when it is missing). -/
structure EngineState (α β : Type) where
  running : Bool
  minRenderInterval : ℚ
  busy : Bool
  pendingMessage : Option (RenderMsg α)
  lastTimestamp : ℚ
  paletteBuffer : Option β
  paletteVersion : ℤ
  paletteSentVersion : ℤ
  posted : List (WireMsg α β)
  draws : List (ℕ × ℕ)
deriving DecidableEq

namespace FractalEngine

/-- Model of `FractalEngine.renderFrame` (src/lib/fractalEngine.js, lines
197-256), minus telemetry and the re-scheduling of the next callback:
frame-interval gating, palette synchronization, composer invocation and
single-slot backpressure dispatch. -/
def renderFrame {α β : Type} (s : EngineState α β) (f : FrameInput α) :
    EngineState α β :=
  if s.running = false then s
  else if f.timestamp - s.lastTimestamp < s.minRenderInterval then s
  else
    let s1 := { s with lastTimestamp := f.timestamp }
    if f.width = 0 ∨ f.height = 0 then s1
    else
      let s2 := match s1.paletteBuffer with
        | some buf =>
            if s1.paletteVersion ≠ s1.paletteSentVersion then
              { s1 with posted := s1.posted ++ [WireMsg.setPalette buf],
                        paletteSentVersion := s1.paletteVersion }
            else s1
        | none => s1
      match f.payload with
      | none => s2
      | some p =>
          let m : RenderMsg α := ⟨f.width, f.height, p⟩
          if s2.busy then { s2 with pendingMessage := some m }
          else { s2 with busy := true, posted := s2.posted ++ [WireMsg.render m] }

/-- Model of `FractalEngine.handleWorkerMessage` (src/lib/fractalEngine.js,
lines 169-195) restricted to `render-result` messages (other messages
only invoke the optional `onWorkerMessage` hook): draw when the buffer
is non-null, clear `busy`, and dispatch the pending request if any. -/
def handleWorkerMessage {α β γ : Type} (s : EngineState α β)
    (m : RenderResultMsg γ) : EngineState α β :=
  let s1 := if m.buffer.isSome then { s with draws := s.draws ++ [(m.width, m.height)] }
            else s
  let s2 := { s1 with busy := false }
  match s2.pendingMessage with
  | some queued =>
      { s2 with pendingMessage := none, busy := true,
                posted := s2.posted ++ [WireMsg.render queued] }
  | none => s2

/-- Model of `FractalEngine.setPalette` (src/lib/fractalEngine.js, lines
277-283); the `Float32Array` type check is captured by the type `β`. -/
def setPalette {α β : Type} (s : EngineState α β) (buffer : β) :
    EngineState α β :=
  { s with paletteBuffer := some buffer, paletteVersion := s.paletteVersion + 1 }

/-- Whether a frame-callback invocation passes all of `renderFrame`'s
early-exit gates (running, frame-interval, nonzero canvas size). -/
def acceptedFrame {α β : Type} (s : EngineState α β) (f : FrameInput α) : Bool :=
  s.running && !(decide (f.timestamp - s.lastTimestamp < s.minRenderInterval))
    && !(decide (f.width = 0 ∨ f.height = 0))

/-- The render requests composed (in order) over a sequence of frame
callbacks: one per accepted frame whose composer returned a payload. -/
def composedRenders {α β : Type} (s : EngineState α β) :
    List (FrameInput α) → List (RenderMsg α)
  | [] => []
  | f :: fs =>
      let rest := composedRenders (renderFrame s f) fs
      if acceptedFrame s f then
        (match f.payload with
         | some p => [(⟨f.width, f.height, p⟩ : RenderMsg α)]
         | none => []) ++ rest
      else rest

end FractalEngine

/-! ## Compute worker (src/workers/fractalWorker.js) -/

/-- The worker's retained module state: the palette buffer and the
derived cyclic length `palette.length / 3` (JavaScript float division,
hence a rational). -/
structure WorkerState where
  palette : List ℚ
  paletteLength : ℚ

/-- The view window of a render message, as used by the worker. -/
structure WorkerView where
  centerX : ℝ
  centerY : ℝ
  scale : ℝ
  aspectRatio : ℝ

/-- The payload of a `render` message on the worker side. -/
structure WorkerRenderMsg where
  width : ℕ
  height : ℕ
  fractalType : String
  fractalVariant : String
  juliaSeed : Option (ℝ × ℝ)
  maxIterations : ℕ
  view : WorkerView

/-- A message delivered to the worker's `onmessage` handler. -/
inductive WorkerMsg where
  | setPalette (colors : List ℚ)
  | render (msg : WorkerRenderMsg)
  | other

/-- The worker's `render-result` reply. -/
structure WorkerReply where
  width : ℕ
  height : ℕ
  buffer : Option (List ℝ)

/-- JavaScript truncation toward zero, as performed by `%`. -/
noncomputable def jsTrunc (x : ℝ) : ℤ := if 0 ≤ x then ⌊x⌋ else -⌊-x⌋

/-- JavaScript `%` on numbers (sign follows the dividend). -/
noncomputable def jsMod (x y : ℝ) : ℝ := x - y * (jsTrunc (x / y) : ℝ)

/-- Model of `Math.round` (round half up). -/
noncomputable def jsRound (x : ℝ) : ℤ := ⌊x + 1 / 2⌋

/-- One iteration of the selected family member (the body of the
worker's escape loop, lines 82-108 of src/workers/fractalWorker.js),
mapping `(zx, zy)` to the next value;  `zx2`/`zy2` are the squares of
the current components, as precomputed by the loop. -/
noncomputable def fractalIterStep (fractalType fractalVariant : String)
    (cx cy zx zy : ℝ) : ℝ × ℝ :=
  if fractalType = "mandelbrot" then
    if fractalVariant = "burning-ship" then
      let absX := |zx|
      let absY := |zy|
      (absX * absX - absY * absY + cx, 2 * absX * absY + cy)
    else if fractalVariant = "cubic" then
      let zxSq := zx * zx
      let zySq := zy * zy
      (zxSq * zx - 3 * zx * zySq + cx, 3 * zxSq * zy - zySq * zy + cy)
    else if fractalVariant = "perpendicular" then
      (zx * zx - zy * zy + cx, |2 * zx * zy| + cy)
    else
      (zx * zx - zy * zy + cx, 2 * zx * zy + cy)
  else
    (zx * zx - zy * zy + cx, 2 * zx * zy + cy)

/-- The worker's escape loop: iterate while `|z|² ≤ 4` with the given
iteration budget as fuel, returning the number of iterations performed
and the final `(zx, zy)`. -/
noncomputable def escapeLoop (fractalType fractalVariant : String)
    (cx cy : ℝ) : ℕ → ℝ × ℝ → ℕ × (ℝ × ℝ)
  | 0, z => (0, z)
  | fuel + 1, z =>
      if z.1 * z.1 + z.2 * z.2 ≤ 4 then
        let z' := fractalIterStep fractalType fractalVariant cx cy z.1 z.2
        let (k, zf) := escapeLoop fractalType fractalVariant cx cy fuel z'
        (k + 1, zf)
      else (0, z)

/-- The four RGBA bytes of one pixel (lines 61-138 of
src/workers/fractalWorker.js): escape iteration, smooth coloring, and
cyclic palette interpolation. -/
noncomputable def workerPixel (st : WorkerState) (m : WorkerRenderMsg)
    (real imaginary : ℝ) : List ℝ :=
  let zx0 : ℝ := if m.fractalType = "mandelbrot" then 0 else real
  let zy0 : ℝ := if m.fractalType = "mandelbrot" then 0 else imaginary
  let cx : ℝ := if m.fractalType = "mandelbrot" then real
    else (m.juliaSeed.map Prod.fst).getD 0
  let cy : ℝ := if m.fractalType = "mandelbrot" then imaginary
    else (m.juliaSeed.map Prod.snd).getD 0
  let (iteration, zf) :=
    escapeLoop m.fractalType m.fractalVariant cx cy m.maxIterations (zx0, zy0)
  let zx2 := zf.1 * zf.1
  let zy2 := zf.2 * zf.2
  let smoothIteration : ℝ :=
    if iteration < m.maxIterations then
      let logZn := Real.log (zx2 + zy2) / 2
      let nu := Real.log (logZn / Real.log 2) / Real.log 2
      (iteration : ℝ) + 1 - nu
    else (iteration : ℝ)
  let wrapIndex := jsMod smoothIteration (st.paletteLength : ℝ)
  let baseIndex := ⌊wrapIndex⌋
  let t := wrapIndex - (baseIndex : ℝ)
  let nextIndex := (baseIndex.toNat + 1) % (Int.toNat ⌈(st.paletteLength : ℝ)⌉)
  let baseOffset := baseIndex.toNat * 3
  let nextOffset := nextIndex * 3
  let pal := fun i => ((st.palette.getD i 0 : ℚ) : ℝ)
  let redChannel := lerp (pal baseOffset) (pal nextOffset) t
  let greenChannel := lerp (pal (baseOffset + 1)) (pal (nextOffset + 1)) t
  let blueChannel := lerp (pal (baseOffset + 2)) (pal (nextOffset + 2)) t
  [clamp ((jsRound redChannel : ℤ) : ℝ) 0 255,
   clamp ((jsRound greenChannel : ℤ) : ℝ) 0 255,
   clamp ((jsRound blueChannel : ℤ) : ℝ) 0 255, 255]

/-- The full pixel buffer of a render pass (row-major, top-to-bottom,
4 entries per pixel). -/
noncomputable def workerComputeBuffer (st : WorkerState) (m : WorkerRenderMsg) :
    List ℝ :=
  let scale := m.view.scale
  let scaledHeight := scale * m.view.aspectRatio
  let minRe := m.view.centerX - scale / 2
  let maxRe := m.view.centerX + scale / 2
  let minIm := m.view.centerY - scaledHeight / 2
  let maxIm := m.view.centerY + scaledHeight / 2
  let reStep := (maxRe - minRe) / (m.width : ℝ)
  let imStep := (maxIm - minIm) / (m.height : ℝ)
  (List.range m.height).flatMap fun (y : ℕ) =>
    (List.range m.width).flatMap fun (x : ℕ) =>
      workerPixel st m (minRe + (x : ℝ) * reStep) (maxIm - (y : ℝ) * imStep)

/-- The worker's `self.onmessage` handler
(src/workers/fractalWorker.js, lines 6-151): `set-palette` replaces the
retained buffer; `render` answers with a null buffer when the palette
is empty or a dimension is zero, and with the computed pixels
otherwise; other messages are ignored. -/
noncomputable def workerOnMessage (st : WorkerState) :
    WorkerMsg → WorkerState × Option WorkerReply
  | .setPalette colors =>
      ({ palette := colors, paletteLength := (colors.length : ℚ) / 3 }, none)
  | .other => (st, none)
  | .render m =>
      if st.paletteLength = 0 ∨ m.width = 0 ∨ m.height = 0 then
        (st, some ⟨m.width, m.height, none⟩)
      else
        (st, some ⟨m.width, m.height, some (workerComputeBuffer st m)⟩)

/-! ## Palette LUT builder (src/utils/fractalColor.js) -/

/-- An integer RGB triple as produced by `hexToRgb`. -/
structure RgbN where
  r : ℕ
  g : ℕ
  b : ℕ
deriving DecidableEq

/-- A real-valued RGB triple (LUT entries after interpolation). -/
structure Rgb where
  r : ℝ
  g : ℝ
  b : ℝ

/-- Value of one hexadecimal digit (invalid characters, which would
make JavaScript `parseInt` return `NaN`, are mapped to `0`; all
modelled inputs are valid). -/
def hexDigitVal (c : Char) : ℕ :=
  if '0' ≤ c ∧ c ≤ '9' then c.toNat - 48
  else if 'a' ≤ c ∧ c ≤ 'f' then c.toNat - 87
  else if 'A' ≤ c ∧ c ≤ 'F' then c.toNat - 55
  else 0

/-- Model of `parseInt(s, 16)` for a valid hexadecimal character list. -/
def parseHexNat (s : List Char) : ℕ :=
  s.foldl (fun acc c => acc * 16 + hexDigitVal c) 0

/-- JavaScript `hex.replace('#', '')` with a string pattern replaces
only the first occurrence. -/
def removeFirstHash : List Char → List Char
  | [] => []
  | c :: cs => if c = '#' then cs else c :: removeFirstHash cs

/-- Model of `hexToRgb` from src/utils/fractalColor.js (3- and 6-digit forms),
operating on the character list of the hex string. -/
def hexToRgb (hex : String) : RgbN :=
  let normalized := removeFirstHash hex.data
  let bigint := parseHexNat normalized
  if normalized.length = 3 then
    let r := (bigint >>> 8) &&& 0xf
    let g := (bigint >>> 4) &&& 0xf
    let b := bigint &&& 0xf
    ⟨(r <<< 4) ||| r, (g <<< 4) ||| g, (b <<< 4) ||| b⟩
  else
    ⟨(bigint >>> 16) &&& 255, (bigint >>> 8) &&& 255, bigint &&& 255⟩

/-- The per-channel sRGB transfer of `relativeLuminance`. -/
noncomputable def srgbChannel (value : ℝ) : ℝ :=
  let v := value / 255
  if v ≤ 0.03928 then v / 12.92 else ((v + 0.055) / 1.055) ^ (2.4 : ℝ)

/-- Model of `relativeLuminance` from src/utils/fractalColor.js. -/
noncomputable def relativeLuminance (color : Rgb) : ℝ :=
  0.2126 * srgbChannel color.r + 0.7152 * srgbChannel color.g
    + 0.0722 * srgbChannel color.b

/-- Model of `normalizePaletteContrast` from src/utils/fractalColor.js:
stretch the luminance range about its midpoint to reach at least
`minimumRange`, then rescale each channel through the gamma curve. -/
noncomputable def normalizePaletteContrast (lut : List Rgb)
    (minimumRange : ℝ := 0.95) (gamma : ℝ := 0.9) : List Rgb :=
  let luminances := lut.map relativeLuminance
  let minLum := jsMin luminances
  let maxLum := jsMax luminances
  let range := maxLum - minLum
  let midLum := (maxLum + minLum) / 2
  let targetRange := max minimumRange (range * 1.2)
  let stretch := targetRange / max range 1e-6
  lut.enum.map fun p =>
    let index := p.1
    let color := p.2
    let currentLum := luminances.getD index 0
    let targetLum := min 1 (max 0 (midLum + (currentLum - midLum) * stretch))
    let currentLinear := relativeLuminance color
    if currentLinear = 0 then
      ⟨targetLum * 255, targetLum * 255, targetLum * 255⟩
    else
      let ratio := targetLum / max currentLinear 1e-6
      let remap := fun (channel : ℝ) =>
        max 0 (min 255 (255 * (max 0 (min 1 (channel * ratio / 255))) ^ gamma))
      ⟨remap color.r, remap color.g, remap color.b⟩

/-- Model of `buildPaletteLut` from src/utils/fractalColor.js: interpolate the
anchors cyclically over `steps` samples, then contrast-normalize.
(For `steps = 1` the JavaScript divides by zero and faults on the
resulting `NaN` index; theorems therefore assume `2 ≤ steps`.) -/
noncomputable def buildPaletteLut (colors : List String) (steps : ℕ := 1024) :
    List Rgb :=
  let rgb := colors.map hexToRgb
  let lut := (List.range steps).map fun (i : ℕ) =>
    let position := ((i : ℝ) / ((steps : ℝ) - 1)) * ((rgb.length : ℝ) - 1)
    let index := ⌊position⌋
    let frac := position - (index : ℝ)
    let current := rgb.getD index.toNat ⟨0, 0, 0⟩
    let next := rgb.getD ((index.toNat + 1) % rgb.length) ⟨0, 0, 0⟩
    (⟨lerp (current.r : ℝ) (next.r : ℝ) frac,
      lerp (current.g : ℝ) (next.g : ℝ) frac,
      lerp (current.b : ℝ) (next.b : ℝ) frac⟩ : Rgb)
  normalizePaletteContrast lut

/-- The relative-luminance span between the darkest and brightest
entries of a LUT (the quantity the specification bounds from below). -/
noncomputable def lumSpan (lut : List Rgb) : ℝ :=
  jsMax (lut.map relativeLuminance) - jsMin (lut.map relativeLuminance)

/-! ## Scene director and mutation engine (src/hooks/useFractalControls.js)

The React refs and the ambient-state object are gathered into one
record.  Rational fields model every value the hook manipulates with
exact decimal arithmetic; oscillator phases and Julia seeds, which pass
through `Math.sin`/`Math.cos`/`Math.PI`, are real-valued.  The
throttled published seed (`setJuliaSeed`) is conflated with the
internally-used `juliaSeedRef`. -/

/-- Model of `randomJuliaSeed` from src/utils/fractalControls.js with its two
`rng()` draws passed explicitly. -/
noncomputable def randomJuliaSeed (r1 r2 : ℚ) : ℝ × ℝ :=
  let angle : ℝ := (r1 : ℝ) * Real.pi * 2
  let radius : ℝ := 0.6 + (r2 : ℝ) * 0.35
  (Real.cos angle * radius, Real.sin angle * radius)

/-- The director's mutable state (view ref, ambient state, and the
relevant React state/refs of `useFractalControls`). -/
structure DirectorState where
  fractalType : String
  fractalVariant : String
  juliaSeed : ℝ × ℝ
  paletteIndex : ℕ
  autoZoomSpeed : ℚ
  autoZoomDirection : ℤ
  mutationsEnabled : Bool
  activePresetName : Option String
  baseCenterX : ℚ
  baseCenterY : ℚ
  scale : ℚ
  pulsePhase : ℝ
  pulseSpeed : ℚ
  breathePhase : ℝ
  breatheSpeed : ℚ
  driftPhase : ℝ
  driftSpeed : ℚ
  orbitPhase : ℝ
  driftOffsetX : ℝ
  driftOffsetY : ℝ
  mutationElapsed : ℚ
  mutationInterval : ℚ
  juliaPhase : ℚ
  juliaMorphSpeed : ℚ
  juliaSource : ℝ × ℝ
  juliaTarget : ℝ × ℝ
  juliaAccumulator : ℚ
  paletteCooldown : ℚ
  variantCooldown : ℚ
  seedCooldown : ℚ
  zoomDirectionCooldown : ℚ
  zoomOutTimer : ℚ
  typeCooldown : ℚ
  sceneName : Option String
  sceneElapsed : ℚ
  sceneDuration : ℚ
  sceneTargetScale : ℚ
  sceneShiftIntensity : ℚ
  focusTarget : Option (ℚ × ℚ)

/-- Model of `updateFocusTarget` (useFractalControls.js, lines 136-156).
All call sites pass a finite number or nothing, so the
`typeof scaleOverride === 'number'` check reduces to the `Option`. -/
def updateFocusTarget (st : DirectorState) (scaleOverride : Option ℚ)
    (rng : List ℚ) : DirectorState × List ℚ :=
  let scale := scaleOverride.getD st.scale
  let (focus, rng') := pickFocusTarget st.fractalType st.fractalVariant scale rng
  match focus with
  | some f =>
      let snapBlend : ℚ := if scale < 0.05 then 0.8 else 0.4
      ({ st with focusTarget := some f,
                 baseCenterX := lerp st.baseCenterX f.1 snapBlend,
                 baseCenterY := lerp st.baseCenterY f.2 snapBlend }, rng')
  | none => ({ st with focusTarget := none }, rng')

/-- The scene-target computation of `applyScene` (useFractalControls.js,
lines 218-225): a uniform draw from the scene's range, capped at 70% of
the current scale, clamped into `[MIN_VIEW_SCALE, MAX_VIEW_SCALE*0.95]`. -/
def sceneTargetScaleOf (currentScale lo hi r : ℚ) : ℚ :=
  let baseTarget := randomRange lo hi r
  let desiredScale := min (currentScale * 0.7) baseTarget
  clamp desiredScale MIN_VIEW_SCALE (MAX_VIEW_SCALE * 0.95)

/-- Model of `applyScene` (useFractalControls.js, lines 209-304), with every
`Math.random()` draw consumed from the stream in source order.  Status
messages are not modelled. -/
noncomputable def applyScene (st0 : DirectorState) (sceneDef : SceneDefinition)
    (rng0 : List ℚ) : DirectorState × List ℚ :=
  let st := { st0 with sceneName := some sceneDef.name,
                       activePresetName := some sceneDef.name,
                       sceneElapsed := 0 }
  let (rDur, rng) := drawRand rng0
  let nextDuration := randomRange sceneDef.durationRange.1 sceneDef.durationRange.2 rDur
  let st := { st with sceneDuration := nextDuration }
  let (rTarget, rng) := drawRand rng
  let targetScale := sceneTargetScaleOf st.scale sceneDef.targetScaleRange.1
    sceneDef.targetScaleRange.2 rTarget
  let st := { st with sceneTargetScale := targetScale }
  let (st, rng) := updateFocusTarget st (some targetScale) rng
  let st := { st with sceneShiftIntensity := sceneDef.shiftIntensity }
  let (rSpeed, rng) := drawRand rng
  let nextSpeed := clamp (randomRange sceneDef.zoomSpeedRange.1 sceneDef.zoomSpeedRange.2 rSpeed)
    AUTO_ZOOM_MIN_SPEED AUTO_ZOOM_MAX_SPEED
  let st := { st with autoZoomSpeed := nextSpeed }
  let nextDirection := sceneDef.zoomDirection
  let nextZoomOutTimer : ℚ := if nextDirection = 1 then ZOOM_OUT_MAX_SECONDS else 0
  let nextZoomDirCooldown : ℚ :=
    if nextDirection = 1 then ZOOM_OUT_MAX_SECONDS else ZOOM_DIRECTION_COOLDOWN_SECONDS
  let st := { st with
    autoZoomDirection := nextDirection,
    zoomOutTimer := nextZoomOutTimer,
    zoomDirectionCooldown := nextZoomDirCooldown,
    paletteCooldown := PALETTE_COOLDOWN_SECONDS * 0.6,
    variantCooldown := VARIANT_COOLDOWN_SECONDS * 0.75,
    typeCooldown := FRACTAL_TYPE_COOLDOWN_SECONDS * 0.75,
    mutationElapsed := 0 }
  let (rInt, rng) := drawRand rng
  let nextMutationInterval := randomRange MUTATION_INTERVAL_MIN MUTATION_INTERVAL_MAX rInt
  let st := { st with mutationInterval := nextMutationInterval }
  let (st, rng) :=
    if sceneDef.paletteBias ≠ [] then
      let (roll, rng1) := drawRand rng
      if roll < 0.7 then
        let (rPick, rng2) := drawRand rng1
        let picked := pickFromD sceneDef.paletteBias 0 rPick
        let nextPalette :=
          if picked = st.paletteIndex then (picked + 1) % FRACTAL_PALETTES.length
          else picked
        ({ st with paletteIndex := nextPalette }, rng2)
      else (st, rng1)
    else (st, rng)
  let (st, rng) :=
    if st.fractalType = "mandelbrot" ∧ sceneDef.variantBias ≠ [] then
      let (roll, rng1) := drawRand rng
      if roll < 0.65 then
        let (rPick, rng2) := drawRand rng1
        let nextVariant := pickFromD sceneDef.variantBias "classic" rPick
        let st := { st with fractalVariant := nextVariant }
        updateFocusTarget st (some st.sceneTargetScale) rng2
      else (st, rng1)
    else (st, rng)
  let (st, rng) :=
    if st.fractalType = "julia" then
      let (roll, rng1) := drawRand rng
      if roll < 0.55 then
        let (r1, rng2) := drawRand rng1
        let (r2, rng3) := drawRand rng2
        ({ st with juliaSeed := randomJuliaSeed r1 r2 }, rng3)
      else (st, rng1)
    else (st, rng)
  if sceneDef.name = "deep-dive" then
    let maxShift := st.scale * 0.35
    let (r1, rng1) := drawRand rng
    let (r2, rng2) := drawRand rng1
    ({ st with baseCenterX := st.baseCenterX + (r1 - 0.5) * maxShift,
               baseCenterY := st.baseCenterY + (r2 - 0.5) * maxShift }, rng2)
  else (st, rng)

/-- Model of `alignViewToType` (useFractalControls.js, lines 310-340); the two
option flags default to `resetScale = true`, `recenter = resetScale`
at the call sites. -/
def alignViewToType (st0 : DirectorState) (type : String)
    (resetScale recenter : Bool) (rng : List ℚ) : DirectorState × List ℚ :=
  let st := if recenter then
      { st0 with baseCenterX := if type = "mandelbrot" then -0.5 else 0,
                 baseCenterY := 0 }
    else st0
  if resetScale then
    let st := { st with scale := INITIAL_VIEW_SCALE,
                        zoomOutTimer := 0,
                        zoomDirectionCooldown := ZOOM_DIRECTION_COOLDOWN_SECONDS,
                        sceneTargetScale := INITIAL_VIEW_SCALE }
    let (st, rng') := updateFocusTarget st (some INITIAL_VIEW_SCALE) rng
    let st := { st with autoZoomDirection := -1,
                        autoZoomSpeed :=
                          clamp (max st.autoZoomSpeed 0.006)
                            AUTO_ZOOM_MIN_SPEED AUTO_ZOOM_MAX_SPEED }
    (st, rng')
  else (st, rng)

def defaultSceneDefinition : SceneDefinition := ⟨"", (0, 0), 0, (0, 0), (0, 0), 0, [], []⟩

/-- The mutation categories of `runFractalMutation`. -/
inductive MutAction where
  | palette
  | typeToggle
  | variant
  | juliaReseed
  | zoomSpeed
  | zoomDirection
  | shiftCore
  | ambientRhythm
  | refocusDeeper
deriving DecidableEq

/-- Model of `mutatePalette` (useFractalControls.js, lines 352-361).  The third
component counts the status fragments pushed to `updates`. -/
def execMutatePalette (st : DirectorState) (rng : List ℚ) :
    DirectorState × List ℚ × ℕ :=
  let (r, rng1) := drawRand rng
  let n0 := Int.toNat ⌊r * (FRACTAL_PALETTES.length : ℚ)⌋
  let nextPalette := if n0 = st.paletteIndex then (n0 + 1) % FRACTAL_PALETTES.length else n0
  ({ st with paletteIndex := nextPalette,
             paletteCooldown := PALETTE_COOLDOWN_SECONDS }, rng1, 1)

/-- Model of `toggleFractalType` (useFractalControls.js, lines 371-387): switch
family, realign the view, set the type cooldown, then pick and apply a
fresh scene (which rescales the cooldowns), and reseed when switching
to Julia. -/
noncomputable def execToggleFractalType (st : DirectorState) (rng : List ℚ) :
    DirectorState × List ℚ × ℕ :=
  let nextType := if st.fractalType = "mandelbrot" then "julia" else "mandelbrot"
  let st1 := { st with fractalType := nextType }
  let (st2, rng1) := alignViewToType st1 nextType true true rng
  let st3 := { st2 with typeCooldown := FRACTAL_TYPE_COOLDOWN_SECONDS }
  let (rScene, rng2) := drawRand rng1
  let nextScene := (pickSceneDefinition st3.sceneName SCENE_DEFINITIONS rScene).getD
    defaultSceneDefinition
  let (st4, rng3) := applyScene st3 nextScene rng2
  if nextType = "julia" then
    let (r1, rng4) := drawRand rng3
    let (r2, rng5) := drawRand rng4
    ({ st4 with juliaSeed := randomJuliaSeed r1 r2 }, rng5, 1)
  else (st4, rng3, 1)

/-- Model of `mutateVariant` (useFractalControls.js, lines 392-401). -/
def execMutateVariant (st : DirectorState) (rng : List ℚ) :
    DirectorState × List ℚ × ℕ :=
  let options := FRACTAL_VARIANTS.filter (fun variant => variant ≠ st.fractalVariant)
  let (r, rng1) := drawRand rng
  let nextVariant := options.getD (Int.toNat ⌊r * (options.length : ℚ)⌋) "classic"
  let st1 := { st with fractalVariant := nextVariant }
  let (st2, rng2) := updateFocusTarget st1 (some st1.sceneTargetScale) rng1
  ({ st2 with variantCooldown := VARIANT_COOLDOWN_SECONDS }, rng2, 1)

/-- Model of `reseedJulia` (useFractalControls.js, lines 407-417): a no-op while
the seed cooldown is positive. -/
noncomputable def execReseedJulia (st : DirectorState) (rng : List ℚ) :
    DirectorState × List ℚ × ℕ :=
  if 0 < st.seedCooldown then (st, rng, 0)
  else
    let (r1, rng1) := drawRand rng
    let (r2, rng2) := drawRand rng1
    let st1 := { st with juliaSeed := randomJuliaSeed r1 r2 }
    let (st2, rng3) := alignViewToType st1 "julia" false false rng2
    ({ st2 with seedCooldown := JULIA_COOLDOWN_SECONDS }, rng3, 1)

/-- Model of `mutateZoomSpeed` (useFractalControls.js, lines 425-430). -/
def execMutateZoomSpeed (st : DirectorState) (rng : List ℚ) :
    DirectorState × List ℚ × ℕ :=
  let (r, rng1) := drawRand rng
  let nextSpeed := clamp (randomRange 0.0032 0.007 r) AUTO_ZOOM_MIN_SPEED AUTO_ZOOM_MAX_SPEED
  ({ st with autoZoomSpeed := nextSpeed }, rng1, 1)

/-- Model of `mutateZoomDirection` (useFractalControls.js, lines 433-459): a
no-op while its cooldown is positive; an outward flip is blocked near
the scale ceiling. -/
def execMutateZoomDirection (st : DirectorState) (rng : List ℚ) :
    DirectorState × List ℚ × ℕ :=
  if 0 < st.zoomDirectionCooldown then (st, rng, 0)
  else
    let (r, rng1) := drawRand rng
    let d0 : ℤ := if 0.78 < r then 1 else -1
    let nextDirection : ℤ :=
      if d0 = 1 ∧ MAX_VIEW_SCALE * 0.8 ≤ st.scale then -1 else d0
    let st1 := { st with autoZoomDirection := nextDirection }
    if nextDirection = 1 then
      ({ st1 with zoomOutTimer := ZOOM_OUT_MAX_SECONDS,
                  zoomDirectionCooldown := ZOOM_OUT_MAX_SECONDS }, rng1, 1)
    else
      ({ st1 with zoomOutTimer := 0,
                  zoomDirectionCooldown := ZOOM_DIRECTION_COOLDOWN_SECONDS,
                  autoZoomSpeed :=
                    clamp (max st1.autoZoomSpeed 0.006)
                      AUTO_ZOOM_MIN_SPEED AUTO_ZOOM_MAX_SPEED }, rng1, 1)

/-- Model of `shiftCore` (useFractalControls.js, lines 464-470). -/
def execShiftCore (st : DirectorState) (rng : List ℚ) :
    DirectorState × List ℚ × ℕ :=
  let maxShift := st.scale * 0.28
  let (r1, rng1) := drawRand rng
  let (r2, rng2) := drawRand rng1
  ({ st with baseCenterX := st.baseCenterX + (r1 - 0.5) * maxShift,
             baseCenterY := st.baseCenterY + (r2 - 0.5) * maxShift }, rng2, 1)

/-- Model of `mutateAmbientRhythm` (useFractalControls.js, lines 473-480). -/
noncomputable def execMutateAmbientRhythm (st : DirectorState) (rng : List ℚ) :
    DirectorState × List ℚ × ℕ :=
  let (r1, rng1) := drawRand rng
  let (r2, rng2) := drawRand rng1
  let (r3, rng3) := drawRand rng2
  let (r4, rng4) := drawRand rng3
  ({ st with pulseSpeed := randomRange 0.45 0.9 r1,
             breatheSpeed := randomRange 0.08 0.19 r2,
             driftSpeed := randomRange 0.012 0.03 r3,
             orbitPhase := st.orbitPhase + (r4 : ℝ) * Real.pi * 2 }, rng4, 1)

/-- Model of `refocusDeeper` (useFractalControls.js, lines 483-492). -/
def execRefocusDeeper (st : DirectorState) (rng : List ℚ) :
    DirectorState × List ℚ × ℕ :=
  let (r, rng1) := drawRand rng
  let nextTarget := clamp (st.sceneTargetScale * randomRange 0.12 0.28 r)
    MIN_VIEW_SCALE (MAX_VIEW_SCALE * 0.5)
  let st1 := { st with sceneTargetScale := nextTarget }
  let (st2, rng2) := updateFocusTarget st1 (some st1.sceneTargetScale) rng1
  (st2, rng2, 1)

/-- Dispatch one mutation action. -/
noncomputable def execMutationAction :
    MutAction → DirectorState → List ℚ → DirectorState × List ℚ × ℕ
  | .palette, st, rng => execMutatePalette st rng
  | .typeToggle, st, rng => execToggleFractalType st rng
  | .variant, st, rng => execMutateVariant st rng
  | .juliaReseed, st, rng => execReseedJulia st rng
  | .zoomSpeed, st, rng => execMutateZoomSpeed st rng
  | .zoomDirection, st, rng => execMutateZoomDirection st rng
  | .shiftCore, st, rng => execShiftCore st rng
  | .ambientRhythm, st, rng => execMutateAmbientRhythm st rng
  | .refocusDeeper, st, rng => execRefocusDeeper st rng

/-- The eligible pool assembled by `runFractalMutation`
(useFractalControls.js `choices.push` sites, lines 362-493), in push
order.  `paletteMutated`/`juliaFired` record whether the respective
unconditional-fire branches already ran; none of the fields consulted
here is modified between the individual pushes in the source. -/
def eligibleChoices (st : DirectorState) (paletteMutated juliaFired : Bool) :
    List MutAction :=
  (if ¬paletteMutated ∧ st.paletteCooldown ≤ 0 then [MutAction.palette] else []) ++
  (if st.typeCooldown ≤ 0 then [MutAction.typeToggle] else []) ++
  (if st.fractalType = "mandelbrot" ∧ st.variantCooldown ≤ 0 then [MutAction.variant] else []) ++
  (if st.fractalType = "julia" ∧ ¬juliaFired then [MutAction.juliaReseed] else []) ++
  [MutAction.zoomSpeed] ++
  (if st.zoomDirectionCooldown ≤ 0 then [MutAction.zoomDirection] else []) ++
  [MutAction.shiftCore, MutAction.ambientRhythm, MutAction.refocusDeeper]

/-- The selection loop of `runFractalMutation` (lines 497-501): splice
a uniformly chosen action out of the pool and execute it, accumulating
the number of status fragments. -/
noncomputable def execMutationLoop :
    ℕ → List MutAction → DirectorState → List ℚ → ℕ → DirectorState × List ℚ × ℕ
  | 0, _, st, rng, updates => (st, rng, updates)
  | n + 1, choices, st, rng, updates =>
      if choices.length = 0 then (st, rng, updates)
      else
        let (r, rng1) := drawRand rng
        let index := Int.toNat ⌊r * (choices.length : ℚ)⌋
        let action := choices.getD index MutAction.ambientRhythm
        let choices' := choices.eraseIdx index
        let (st', rng2, du) := execMutationAction action st rng1
        execMutationLoop n choices' st' rng2 (updates + du)

/-- Model of `runFractalMutation` (useFractalControls.js, lines 342-521):
scene-boosted unconditional palette roll, unconditional Julia-reseed
roll, pool assembly, selection of 1-2 actions, and the
ambient-rhythm fallback when no action produced a status fragment. -/
noncomputable def runFractalMutation (st0 : DirectorState) (rng0 : List ℚ) :
    DirectorState × List ℚ :=
  let sceneBoost : ℚ :=
    if st0.sceneName = some "deep-dive" then 0.18
    else if st0.sceneName = some "cosmic-orbit" then 0.12
    else 0
  let paletteChance := PALETTE_MUTATION_CHANCE + sceneBoost
  let (st1, rng1, u1, paletteMutated) :=
    if st0.paletteCooldown ≤ 0 then
      let (roll, rngA) := drawRand rng0
      if roll < paletteChance then
        let (st', rng', u) := execMutatePalette st0 rngA
        (st', rng', u, true)
      else (st0, rngA, 0, false)
    else (st0, rng0, 0, false)
  let (st2, rng2, u2, juliaFired) :=
    if st1.fractalType = "julia" then
      if st1.seedCooldown ≤ 0 then
        let (roll, rngA) := drawRand rng1
        if roll < 0.45 then
          let (st', rng', u) := execReseedJulia st1 rngA
          (st', rng', u, true)
        else (st1, rngA, 0, false)
      else (st1, rng1, 0, false)
    else (st1, rng1, 0, false)
  let choices := eligibleChoices st2 paletteMutated juliaFired
  let (rCount, rng3) := drawRand rng2
  let actionsToRun := min choices.length (if 0.6 < rCount then 2 else 1)
  let (st3, rng4, u3) := execMutationLoop actionsToRun choices st2 rng3 (u1 + u2)
  if u3 = 0 then
    let (st4, rng5, _) := execMutateAmbientRhythm st3 rng4
    (st4, rng5)
  else (st3, rng4)

/-- The per-tick cooldown decrement of `step` (useFractalControls.js,
lines 542-546): `Math.max(0, cooldown - deltaSeconds)`. -/
def tickCooldown (cooldown deltaSeconds : ℚ) : ℚ := max 0 (cooldown - deltaSeconds)

/-- The scene-lifecycle check of `step` (useFractalControls.js, lines
556-561), run after `sceneElapsed` has been incremented.  The third
component records the scene definition handed to `applyScene`
(`none` when the active scene is kept).  The inner `none` branches are
unreachable for a draw in `[0, 1)` since the catalog is nonempty. -/
noncomputable def sceneMaintenance (st : DirectorState) (rng : List ℚ) :
    DirectorState × List ℚ × Option SceneDefinition :=
  match SCENE_DEFINITIONS.find? (fun scene => some scene.name = st.sceneName) with
  | none =>
      let (r, rng1) := drawRand rng
      match pickSceneDefinition none SCENE_DEFINITIONS r with
      | some sc =>
          let (st', rng2) := applyScene st sc rng1
          (st', rng2, some sc)
      | none => (st, rng1, none)
  | some activeScene =>
      if st.sceneDuration ≤ st.sceneElapsed then
        let (r, rng1) := drawRand rng
        match pickSceneDefinition (some activeScene.name) SCENE_DEFINITIONS r with
        | some sc =>
            let (st', rng2) := applyScene st sc rng1
            (st', rng2, some sc)
        | none => (st, rng1, none)
      else (st, rng, none)

/-- The bounded zoom-out window of `step` (useFractalControls.js, lines
547-553): while the timer runs it is decremented, and on expiry an
outward auto-zoom is flipped back inward. -/
def tickZoomOutWindow (st : DirectorState) (dt : ℚ) : DirectorState :=
  if 0 < st.zoomOutTimer then
    let timer := max 0 (st.zoomOutTimer - dt)
    let st' := { st with zoomOutTimer := timer }
    if timer = 0 ∧ st'.autoZoomDirection = 1 then
      { st' with autoZoomDirection := -1 }
    else st'
  else st

/-- The director's continuous tick `step` (useFractalControls.js, lines
527-599): oscillator advance, drift offsets, cooldown decrements,
bounded zoom-out window, scene lifecycle, Julia morph, and the mutation
timer. -/
noncomputable def step (st : DirectorState) (dt : ℚ) (rng : List ℚ) :
    DirectorState × List ℚ :=
  let st1 := { st with pulsePhase := st.pulsePhase
    + (dt : ℝ) * (st.pulseSpeed : ℝ) * (1.05 + Real.sin st.breathePhase * 0.2) }
  let st2 := { st1 with breathePhase := st1.breathePhase + (dt : ℝ) * (st1.breatheSpeed : ℝ) }
  let st3 := { st2 with driftPhase := st2.driftPhase + (dt : ℝ) * (st2.driftSpeed : ℝ) }
  let st4 := { st3 with orbitPhase := st3.orbitPhase
    + (dt : ℝ) * (0.12 + Real.sin (st3.breathePhase * 0.8) * 0.05) }
  let driftIntensityBase := 0.42 + Real.sin (st4.breathePhase * 0.9) * 0.14
  let driftIntensity := driftIntensityBase * (1 + (st4.sceneShiftIntensity : ℝ))
  let st5 := { st4 with
    driftOffsetX := Real.cos st4.driftPhase * driftIntensity,
    driftOffsetY := Real.sin (st4.driftPhase * 1.25) * driftIntensity,
    paletteCooldown := tickCooldown st4.paletteCooldown dt,
    variantCooldown := tickCooldown st4.variantCooldown dt,
    seedCooldown := tickCooldown st4.seedCooldown dt,
    zoomDirectionCooldown := tickCooldown st4.zoomDirectionCooldown dt,
    typeCooldown := tickCooldown st4.typeCooldown dt }
  let st6 := tickZoomOutWindow st5 dt
  let st7 := { st6 with sceneElapsed := st6.sceneElapsed + dt }
  let maintained := sceneMaintenance st7 rng
  let st8 := maintained.1
  let rng1 := maintained.2.1
  let (st9, rng2) :=
    if st8.fractalType = "julia" then
      let phase := st8.juliaPhase + dt * st8.juliaMorphSpeed
      let (st', rng') :=
        if 1 ≤ phase then
          let (r1, rngA) := drawRand rng1
          let (r2, rngB) := drawRand rngA
          let (r3, rngC) := drawRand rngB
          ({ st8 with juliaPhase := phase - 1,
                      juliaSource := st8.juliaTarget,
                      juliaTarget := randomJuliaSeed r1 r2,
                      juliaMorphSpeed := randomRange 0.04 0.09 r3 }, rngC)
        else ({ st8 with juliaPhase := phase }, rng1)
      let morphT := easeInOut st'.juliaPhase
      let nextSeed := (lerp st'.juliaSource.1 st'.juliaTarget.1 (morphT : ℝ),
                       lerp st'.juliaSource.2 st'.juliaTarget.2 (morphT : ℝ))
      let st'' := { st' with juliaSeed := nextSeed }
      let acc := st''.juliaAccumulator + dt
      if 0.14 ≤ acc then ({ st'' with juliaAccumulator := 0 }, rng')
      else ({ st'' with juliaAccumulator := acc }, rng')
    else ({ st8 with juliaPhase := 0, juliaAccumulator := 0 }, rng1)
  let st10 := { st9 with mutationElapsed := st9.mutationElapsed + dt }
  if st10.mutationsEnabled ∧ st10.mutationInterval ≤ st10.mutationElapsed then
    let (rInt, rng3) := drawRand rng2
    let st11 := { st10 with mutationElapsed := 0,
                            mutationInterval :=
                              randomRange MUTATION_INTERVAL_MIN MUTATION_INTERVAL_MAX rInt }
    runFractalMutation st11 rng3
  else if st10.mutationsEnabled = false then ({ st10 with mutationElapsed := 0 }, rng2)
  else (st10, rng2)

/-! ## Render payload composer (useFractalControls.js, lines 801-884)

The composer's arithmetic passes through `Math.pow` with fractional
exponents, `Math.sin`, `Math.log10` and `Math.log`, so this slice of
the hook is modelled over `ℝ`. -/

/-- The iteration-budget computation of `computeRenderPayload`
(useFractalControls.js, lines 824-831).  `Math.log10(1/Math.max(s,1e-9))`
is total on positive arguments, so the `|| 0` fallback never changes
the value. -/
noncomputable def iterationBudget (scale pulsePhase breathePhase : ℝ) : ℤ :=
  let zoomFactor := Real.logb 10 (1 / max scale 1e-9)
  let organicEnergy := 1 + Real.sin (pulsePhase * 0.5 + breathePhase) * 0.18
  let baseIterations := 190 + zoomFactor * 90
  min 900 (max 180 ⌊baseIterations * organicEnergy⌋)

/-- The scale-advance computation of `computeRenderPayload`
(useFractalControls.js, lines 846-875): target-biased exponential zoom,
oscillator modulation, two cascaded frame-independent blends, and the
final clamp into `[MIN_VIEW_SCALE, MAX_VIEW_SCALE]`. -/
noncomputable def advanceViewScale (currentScale deltaSeconds zoomRate : ℝ)
    (zoomDirection : ℤ) (sceneTargetScale pulsePhase breathePhase : ℝ) : ℝ :=
  let perSecondMultiplier := if zoomDirection = -1 then 1 - zoomRate else 1 + zoomRate
  let timeBasedMultiplier := perSecondMultiplier ^ deltaSeconds
  let targetScale := if sceneTargetScale = 0 then currentScale else sceneTargetScale
  let scaleRatio := targetScale / max currentScale 1e-9
  let targetBias := scaleRatio ^ (0.35 : ℝ)
  let guidedMultiplier :=
    if zoomDirection = -1 then clamp (timeBasedMultiplier * targetBias) 0.6 0.98
    else clamp (timeBasedMultiplier / max targetBias 1e-6) 1.05 1.45
  let rawTargetScale := currentScale * guidedMultiplier
  let pulseWave := 1 + Real.sin pulsePhase * 0.11
  let breatheWave := 1 + Real.sin (breathePhase * 0.9 + pulsePhase * 0.33) * 0.06
  let organicMultiplier := max 0.78 (pulseWave * breatheWave)
  let perFrameDamping := 1 - (0.92 : ℝ) ^ (deltaSeconds * 60)
  let easedTargetScale :=
    currentScale + (rawTargetScale * organicMultiplier - currentScale) * perFrameDamping
  let zoomSmoothing := 1 - ((ZOOM_SMOOTHING_FACTOR : ℚ) : ℝ) ^ (deltaSeconds * 60)
  clamp (currentScale + (easedTargetScale - currentScale) * zoomSmoothing)
    ((MIN_VIEW_SCALE : ℚ) : ℝ) ((MAX_VIEW_SCALE : ℚ) : ℝ)

/-- The early-arrival detection of `computeRenderPayload`
(useFractalControls.js, lines 877-879): when the live scale has
converged to the scene target within the log-ratio tolerance, the
scene's elapsed time is forced to its duration. -/
noncomputable def convergedSceneElapsed (scale sceneTargetScale elapsed duration : ℝ) : ℝ :=
  if |Real.log (scale / max sceneTargetScale 1e-12)| < 0.08 then duration else elapsed

/-- The real-valued slice of the view/ambient state the composer reads
and writes. -/
structure ComposerView where
  baseCenterX : ℝ
  baseCenterY : ℝ
  scale : ℝ

/-- The ambient inputs of one composer invocation. -/
structure ComposerInput where
  deltaSeconds : ℝ
  width : ℕ
  height : ℕ
  pulsePhase : ℝ
  breathePhase : ℝ
  driftOffsetX : ℝ
  driftOffsetY : ℝ
  focusTarget : Option (ℝ × ℝ)
  sceneTargetScale : ℝ
  autoZoomSpeed : ℝ
  autoZoomDirection : ℤ
  sceneElapsed : ℝ
  sceneDuration : ℝ
  fractalType : String
  fractalVariant : String
  juliaSeed : Option (ℝ × ℝ)

/-- The view window sent to the engine in a render payload. -/
structure PayloadView where
  centerX : ℝ
  centerY : ℝ
  scale : ℝ
  aspectRatio : ℝ

/-- The render payload returned by the composer. -/
structure FractalRenderPayload where
  fractalType : String
  fractalVariant : String
  juliaSeed : Option (ℝ × ℝ)
  maxIterations : ℤ
  view : PayloadView

/-- The outcome of one composer invocation: the payload plus the
mutations of the view and of `sceneElapsed`. -/
structure ComposerResult where
  payload : FractalRenderPayload
  view : ComposerView
  sceneElapsed : ℝ

/-- Model of `computeRenderPayload` (useFractalControls.js, lines 801-884):
focus easing, attenuated drift, iteration budget, payload assembly
(using the pre-advance scale), scale advance, and early-arrival
detection. -/
noncomputable def computeRenderPayload (view : ComposerView) (inp : ComposerInput) :
    ComposerResult :=
  let focusBlend := 1 - ((FOCUS_INTERPOLATION : ℚ) : ℝ) ^ (inp.deltaSeconds * 60)
  let bcx := match inp.focusTarget with
    | some target => view.baseCenterX + (target.1 - view.baseCenterX) * focusBlend
    | none => view.baseCenterX
  let bcy := match inp.focusTarget with
    | some target => view.baseCenterY + (target.2 - view.baseCenterY) * focusBlend
    | none => view.baseCenterY
  let aspectRatio := (inp.height : ℝ) / (inp.width : ℝ)
  let scaledHeight := view.scale * aspectRatio
  let driftAttenuation := clamp (view.scale / 0.35) 0.05 1
  let driftOffsetX := inp.driftOffsetX * view.scale * 0.45 * driftAttenuation
  let driftOffsetY := inp.driftOffsetY * scaledHeight * 0.45 * driftAttenuation
  let centerX := bcx + driftOffsetX
  let centerY := bcy + driftOffsetY
  let maxIterations := iterationBudget view.scale inp.pulsePhase inp.breathePhase
  let payload : FractalRenderPayload :=
    { fractalType := inp.fractalType,
      fractalVariant := inp.fractalVariant,
      juliaSeed := if inp.fractalType = "julia" then inp.juliaSeed else none,
      maxIterations := maxIterations,
      view := ⟨centerX, centerY, view.scale, aspectRatio⟩ }
  let newScale := advanceViewScale view.scale inp.deltaSeconds inp.autoZoomSpeed
    inp.autoZoomDirection inp.sceneTargetScale inp.pulsePhase inp.breathePhase
  let newElapsed := convergedSceneElapsed newScale inp.sceneTargetScale
    inp.sceneElapsed inp.sceneDuration
  { payload := payload,
    view := ⟨bcx, bcy, newScale⟩,
    sceneElapsed := newElapsed }

/-- Model of `handleManualZoom` (useFractalControls.js, lines 694-701), the
scale mutation only (it also retargets the scene at the new scale). -/
noncomputable def handleManualZoomScale (scale : ℝ) (direction : String) : ℝ :=
  let factor : ℝ := if direction = "in" then 0.8 else 1.25
  clamp (scale * factor) ((MIN_VIEW_SCALE : ℚ) : ℝ) ((MAX_VIEW_SCALE : ℚ) : ℝ)

/-- One scale-mutating operation: a manual zoom button press or one
composer invocation (with its ambient inputs). -/
inductive ZoomOp where
  | manual (direction : String)
  | composer (inp : ComposerInput)

/-- Effect of one operation on `(scale, sceneTargetScale)`: manual zoom
clamps the scale and adopts it as the scene target
(useFractalControls.js, lines 696-698); a composer call advances the
scale via `advanceViewScale`. -/
noncomputable def applyZoomOp : ℝ × ℝ → ZoomOp → ℝ × ℝ
  | (scale, _), .manual direction =>
      let s := handleManualZoomScale scale direction
      (s, s)
  | (scale, target), .composer inp =>
      (advanceViewScale scale inp.deltaSeconds inp.autoZoomSpeed
        inp.autoZoomDirection target inp.pulsePhase inp.breathePhase, target)

/-- A concrete director state used by witnesses and counterexamples:
mid-session Mandelbrot exploration of the `deep-dive` scene whose
elapsed time has passed its duration, with the fractal-type cooldown
expired and the palette/variant/zoom-direction cooldowns still hot. -/
noncomputable def sampleDirectorState : DirectorState where
  fractalType := "mandelbrot"
  fractalVariant := "classic"
  juliaSeed := (0, 0)
  paletteIndex := 0
  autoZoomSpeed := 0.005
  autoZoomDirection := -1
  mutationsEnabled := true
  activePresetName := some "deep-dive"
  baseCenterX := -0.5
  baseCenterY := 0
  scale := 0.9
  pulsePhase := 0
  pulseSpeed := 0.5
  breathePhase := 0
  breatheSpeed := 0.1
  driftPhase := 0
  driftSpeed := 0.02
  orbitPhase := 0
  driftOffsetX := 0
  driftOffsetY := 0
  mutationElapsed := 0
  mutationInterval := 15
  juliaPhase := 0
  juliaMorphSpeed := 0.05
  juliaSource := (0, 0)
  juliaTarget := (0, 0)
  juliaAccumulator := 0
  paletteCooldown := 5
  variantCooldown := 5
  seedCooldown := 0
  zoomDirectionCooldown := 5
  zoomOutTimer := 0
  typeCooldown := 0
  sceneName := some "deep-dive"
  sceneElapsed := 30
  sceneDuration := 20
  sceneTargetScale := 0.001
  sceneShiftIntensity := 0.26
  focusTarget := none

/-! ## Theorems -/

theorem clamp_eq_self {α : Type} [LinearOrder α] {v lo hi : α}
    (h1 : lo ≤ v) (h2 : v ≤ hi) : clamp v lo hi = v := by
  simp [clamp, max_eq_right h1, min_eq_right h2]

theorem clamp_le_hi {α : Type} [LinearOrder α] (v lo hi : α) :
    clamp v lo hi ≤ hi := min_le_left _ _

theorem lo_le_clamp {α : Type} [LinearOrder α] {lo hi : α} (v : α)
    (h : lo ≤ hi) : lo ≤ clamp v lo hi := le_min h (le_max_left _ _)

theorem clamp_le_max {α : Type} [LinearOrder α] {v x : α} (lo hi : α)
    (h : v ≤ x) : clamp v lo hi ≤ max x lo := by
  calc clamp v lo hi ≤ max lo v := min_le_right _ _
  _ ≤ max lo x := max_le_max le_rfl h
  _ = max x lo := max_comm _ _

/-- C10.  The slider-percentage and zoom-speed conversions of
src/utils/fractalControls.js are mutually inverse on their ranges: for
`AUTO_ZOOM_MIN_PERCENT ≤ p ≤ AUTO_ZOOM_MAX_PERCENT`,
`autoZoomSpeedToPercent (percentToAutoZoomSpeed p) = p`, and for
`AUTO_ZOOM_MIN_SPEED ≤ s ≤ AUTO_ZOOM_MAX_SPEED`,
`percentToAutoZoomSpeed (autoZoomSpeedToPercent s) = s`
(exact rational arithmetic). -/
theorem auto_zoom_conversions_inverse (p s : ℚ)
    (hp1 : AUTO_ZOOM_MIN_PERCENT ≤ p) (hp2 : p ≤ AUTO_ZOOM_MAX_PERCENT)
    (hs1 : AUTO_ZOOM_MIN_SPEED ≤ s) (hs2 : s ≤ AUTO_ZOOM_MAX_SPEED) :
    autoZoomSpeedToPercent (percentToAutoZoomSpeed p) = p ∧
    percentToAutoZoomSpeed (autoZoomSpeedToPercent s) = s := by
  rw [AUTO_ZOOM_MIN_PERCENT] at hp1
  rw [AUTO_ZOOM_MAX_PERCENT] at hp2
  rw [AUTO_ZOOM_MIN_SPEED] at hs1
  rw [AUTO_ZOOM_MAX_SPEED] at hs2
  constructor
  · have h1 : percentToAutoZoomSpeed p = 0.001 + (p - 1) / 99 * 0.017 := by
      unfold percentToAutoZoomSpeed
      rw [AUTO_ZOOM_MIN_PERCENT, AUTO_ZOOM_MAX_PERCENT, AUTO_ZOOM_MIN_SPEED,
        AUTO_ZOOM_MAX_SPEED, clamp_eq_self (by linarith) (by linarith)]
      ring
    have hlo : (0.001 : ℚ) ≤ 0.001 + (p - 1) / 99 * 0.017 := by linarith
    have hhi : (0.001 : ℚ) + (p - 1) / 99 * 0.017 ≤ 0.018 := by linarith
    rw [h1]
    unfold autoZoomSpeedToPercent
    rw [AUTO_ZOOM_MIN_PERCENT, AUTO_ZOOM_MAX_PERCENT, AUTO_ZOOM_MIN_SPEED,
      AUTO_ZOOM_MAX_SPEED, clamp_eq_self hlo hhi]
    ring
  · have h1 : autoZoomSpeedToPercent s = (s - 0.001) / 0.017 * 99 + 1 := by
      unfold autoZoomSpeedToPercent
      rw [AUTO_ZOOM_MIN_PERCENT, AUTO_ZOOM_MAX_PERCENT, AUTO_ZOOM_MIN_SPEED,
        AUTO_ZOOM_MAX_SPEED, clamp_eq_self (by linarith) (by linarith)]
      ring
    have hratio1 : (0 : ℚ) ≤ (s - 0.001) / 0.017 := by
      rw [div_nonneg_iff]
      left
      constructor <;> linarith
    have hratio2 : (s - 0.001) / 0.017 ≤ 1 := by
      rw [div_le_one (by norm_num)]
      linarith
    have hlo : (1 : ℚ) ≤ (s - 0.001) / 0.017 * 99 + 1 := by linarith
    have hhi : (s - 0.001) / 0.017 * 99 + 1 ≤ 100 := by linarith
    rw [h1]
    unfold percentToAutoZoomSpeed
    rw [AUTO_ZOOM_MIN_PERCENT, AUTO_ZOOM_MAX_PERCENT, AUTO_ZOOM_MIN_SPEED,
      AUTO_ZOOM_MAX_SPEED, clamp_eq_self hlo hhi]
    field_simp
    ring

/-- Witness for `auto_zoom_conversions_inverse` at `p = 50`, `s = 0.01`. -/
theorem auto_zoom_conversions_inverse_witness :
    AUTO_ZOOM_MIN_PERCENT ≤ (50 : ℚ) ∧ (50 : ℚ) ≤ AUTO_ZOOM_MAX_PERCENT ∧
    AUTO_ZOOM_MIN_SPEED ≤ (0.01 : ℚ) ∧ (0.01 : ℚ) ≤ AUTO_ZOOM_MAX_SPEED ∧
    autoZoomSpeedToPercent (percentToAutoZoomSpeed 50) = 50 ∧
    percentToAutoZoomSpeed (autoZoomSpeedToPercent 0.01) = 0.01 := by
  have h1 : AUTO_ZOOM_MIN_PERCENT ≤ (50 : ℚ) := by norm_num [AUTO_ZOOM_MIN_PERCENT]
  have h2 : (50 : ℚ) ≤ AUTO_ZOOM_MAX_PERCENT := by norm_num [AUTO_ZOOM_MAX_PERCENT]
  have h3 : AUTO_ZOOM_MIN_SPEED ≤ (0.01 : ℚ) := by norm_num [AUTO_ZOOM_MIN_SPEED]
  have h4 : (0.01 : ℚ) ≤ AUTO_ZOOM_MAX_SPEED := by norm_num [AUTO_ZOOM_MAX_SPEED]
  exact ⟨h1, h2, h3, h4,
    (auto_zoom_conversions_inverse 50 0.01 h1 h2 h3 h4).1,
    (auto_zoom_conversions_inverse 50 0.01 h1 h2 h3 h4).2⟩

/-- C7 (amended).  On scene entry `applyScene` sets the scene
target scale to `clamp(min(0.7·current, draw from targetScaleRange),
MIN_VIEW_SCALE, 0.95·MAX_VIEW_SCALE)`: the result always lies in
`[MIN_VIEW_SCALE, 0.95·MAX_VIEW_SCALE]`, never exceeds
`max(0.7·current, MIN_VIEW_SCALE)`, and never exceeds
`max(draw, MIN_VIEW_SCALE)` — but it need not lie inside the scene's
`targetScaleRange`, and it can exceed `0.7·current` when that value
falls below `MIN_VIEW_SCALE`. -/
theorem scene_target_scale_bounds (current lo hi r : ℚ) :
    MIN_VIEW_SCALE ≤ sceneTargetScaleOf current lo hi r ∧
    sceneTargetScaleOf current lo hi r ≤ MAX_VIEW_SCALE * 0.95 ∧
    sceneTargetScaleOf current lo hi r ≤ max (current * 0.7) MIN_VIEW_SCALE ∧
    sceneTargetScaleOf current lo hi r ≤ max (randomRange lo hi r) MIN_VIEW_SCALE := by
  unfold sceneTargetScaleOf
  refine ⟨lo_le_clamp _ (by norm_num [MIN_VIEW_SCALE, MAX_VIEW_SCALE]),
    clamp_le_hi _ _ _, ?_, ?_⟩
  · exact clamp_le_max _ _ (min_le_left _ _)
  · exact clamp_le_max _ _ (min_le_right _ _)

/-- C7 (counterexample).  With the `breathing-bloom` scene
(`targetScaleRange = [0.8, 1.7]`), current scale `0.1` and draw `0`,
the chosen target is `0.07`, strictly below the range's lower end; and
with current scale `MIN_VIEW_SCALE` the chosen target is
`MIN_VIEW_SCALE` itself, which exceeds 70% of the current scale.  Both
conjuncts of the claimed property fail. -/
theorem scene_target_scale_counterexample :
    (SCENE_DEFINITIONS.getD 1 defaultSceneDefinition).targetScaleRange = (0.8, 1.7) ∧
    sceneTargetScaleOf 0.1 0.8 1.7 0 = 0.07 ∧
    ¬ (0.8 : ℚ) ≤ sceneTargetScaleOf 0.1 0.8 1.7 0 ∧
    ¬ sceneTargetScaleOf MIN_VIEW_SCALE 0.8 1.7 0 ≤ MIN_VIEW_SCALE * 0.7 := by
  have h1 : sceneTargetScaleOf 0.1 0.8 1.7 0 = 0.07 := by
    norm_num [sceneTargetScaleOf, randomRange, clamp, MIN_VIEW_SCALE, MAX_VIEW_SCALE]
  have h2 : sceneTargetScaleOf MIN_VIEW_SCALE 0.8 1.7 0 = MIN_VIEW_SCALE := by
    norm_num [sceneTargetScaleOf, randomRange, clamp, MIN_VIEW_SCALE, MAX_VIEW_SCALE]
  refine ⟨rfl, h1, ?_, ?_⟩
  · rw [h1]; norm_num
  · rw [h2]; norm_num [MIN_VIEW_SCALE]

/-- Every single zoom operation leaves the scale clamped into
`[MIN_VIEW_SCALE, MAX_VIEW_SCALE]`. -/
theorem applyZoomOp_scale_bounds (st : ℝ × ℝ) (op : ZoomOp) :
    ((MIN_VIEW_SCALE : ℚ) : ℝ) ≤ (applyZoomOp st op).1 ∧
    (applyZoomOp st op).1 ≤ ((MAX_VIEW_SCALE : ℚ) : ℝ) := by
  have hle : ((MIN_VIEW_SCALE : ℚ) : ℝ) ≤ ((MAX_VIEW_SCALE : ℚ) : ℝ) := by
    rw [Rat.cast_le]
    norm_num [MIN_VIEW_SCALE, MAX_VIEW_SCALE]
  obtain ⟨scale, target⟩ := st
  cases op with
  | manual direction =>
      exact ⟨lo_le_clamp _ hle, clamp_le_hi _ _ _⟩
  | composer inp =>
      unfold applyZoomOp advanceViewScale
      exact ⟨lo_le_clamp _ hle, clamp_le_hi _ _ _⟩

theorem foldl_applyZoomOp_bounds (ops : List ZoomOp) (st : ℝ × ℝ)
    (h : ((MIN_VIEW_SCALE : ℚ) : ℝ) ≤ st.1 ∧ st.1 ≤ ((MAX_VIEW_SCALE : ℚ) : ℝ)) :
    ((MIN_VIEW_SCALE : ℚ) : ℝ) ≤ (List.foldl applyZoomOp st ops).1 ∧
    (List.foldl applyZoomOp st ops).1 ≤ ((MAX_VIEW_SCALE : ℚ) : ℝ) := by
  induction ops generalizing st with
  | nil => exact h
  | cons op ops ih =>
      rw [List.foldl_cons]
      exact ih _ (applyZoomOp_scale_bounds st op)

/-- C3.  After every manual zoom and after every composer
(render-payload) scale update — across arbitrarily many interleaved
operations starting from any state — the view scale satisfies
`MIN_VIEW_SCALE ≤ scale ≤ MAX_VIEW_SCALE` (`0.00003 ≤ scale ≤ 1.1`):
both operations clamp the new scale into that interval. -/
theorem view_scale_invariant (start : ℝ × ℝ) (op : ZoomOp) (ops : List ZoomOp) :
    ((MIN_VIEW_SCALE : ℚ) : ℝ) ≤ (List.foldl applyZoomOp start (op :: ops)).1 ∧
    (List.foldl applyZoomOp start (op :: ops)).1 ≤ ((MAX_VIEW_SCALE : ℚ) : ℝ) := by
  rw [List.foldl_cons]
  exact foldl_applyZoomOp_bounds ops _ (applyZoomOp_scale_bounds start op)

/-- C4.  With the pulse and breathe phases held fixed, the
iteration budget of the Composer is antitone in the scale: for
`0 < s1 < s2`, `budget s1 ≥ budget s2`; and for every scale the budget
lies in `[180, 900]`. -/
theorem iteration_budget_monotone_bounded (pulsePhase breathePhase s1 s2 : ℝ)
    (hs1 : 0 < s1) (h12 : s1 < s2) :
    iterationBudget s2 pulsePhase breathePhase ≤
      iterationBudget s1 pulsePhase breathePhase ∧
    ∀ s : ℝ, 180 ≤ iterationBudget s pulsePhase breathePhase ∧
      iterationBudget s pulsePhase breathePhase ≤ 900 := by
  constructor
  · unfold iterationBudget
    have hp1 : (0 : ℝ) < max s1 1e-9 := lt_max_of_lt_left hs1
    have hp2 : (0 : ℝ) < max s2 1e-9 := lt_max_of_lt_left (hs1.trans h12)
    have hmax : max s1 1e-9 ≤ max s2 1e-9 := max_le_max h12.le le_rfl
    have hinv : 1 / max s2 1e-9 ≤ 1 / max s1 1e-9 :=
      one_div_le_one_div_of_le hp1 hmax
    have hinvpos : (0 : ℝ) < 1 / max s2 1e-9 := by positivity
    have hlogb : Real.logb 10 (1 / max s2 1e-9) ≤ Real.logb 10 (1 / max s1 1e-9) :=
      Real.logb_le_logb_of_le (by norm_num) hinvpos hinv
    have hsin : -1 ≤ Real.sin (pulsePhase * 0.5 + breathePhase) :=
      Real.neg_one_le_sin _
    have henergy : (0 : ℝ) ≤ 1 + Real.sin (pulsePhase * 0.5 + breathePhase) * 0.18 := by
      nlinarith
    have hbase : 190 + Real.logb 10 (1 / max s2 1e-9) * 90 ≤
        190 + Real.logb 10 (1 / max s1 1e-9) * 90 := by linarith
    have hmul := mul_le_mul_of_nonneg_right hbase henergy
    exact min_le_min le_rfl (max_le_max le_rfl (Int.floor_mono hmul))
  · intro s
    unfold iterationBudget
    exact ⟨le_min (by norm_num) (le_max_left _ _), min_le_left _ _⟩

/-- Witness for `iteration_budget_monotone_bounded` at
`pulsePhase = breathePhase = 0`, `s1 = 1`, `s2 = 2`. -/
theorem iteration_budget_monotone_bounded_witness :
    (0 : ℝ) < 1 ∧ (1 : ℝ) < 2 ∧
    (iterationBudget 2 0 0 ≤ iterationBudget 1 0 0 ∧
     ∀ s : ℝ, 180 ≤ iterationBudget s 0 0 ∧ iterationBudget s 0 0 ≤ 900) :=
  ⟨by norm_num, by norm_num,
   iteration_budget_monotone_bounded 0 0 1 2 (by norm_num) (by norm_num)⟩

/-- One frame callback on a busy engine: the engine stays busy, no new
render message reaches the wire, and the pending slot is overwritten by
the newly composed request exactly on accepted frames with a payload. -/
theorem renderFrame_busy_step {α β : Type} (s : EngineState α β) (f : FrameInput α)
    (h : s.busy = true) :
    (FractalEngine.renderFrame s f).busy = true ∧
    (FractalEngine.renderFrame s f).posted.filter (fun w => w.isRender) =
      s.posted.filter (fun w => w.isRender) ∧
    (FractalEngine.renderFrame s f).pendingMessage =
      (if FractalEngine.acceptedFrame s f then
        match f.payload with
        | some p => some ⟨f.width, f.height, p⟩
        | none => s.pendingMessage
       else s.pendingMessage) := by
  unfold FractalEngine.renderFrame FractalEngine.acceptedFrame
  by_cases hrun : s.running = false
  · simp [hrun, h]
  · rw [Bool.not_eq_false] at hrun
    by_cases hint : f.timestamp - s.lastTimestamp < s.minRenderInterval
    · simp [hrun, hint, h]
    · by_cases hwh : f.width = 0 ∨ f.height = 0
      · simp [hrun, hint, hwh, h]
      · cases hpb : s.paletteBuffer with
        | none =>
            cases hp : f.payload with
            | none => simp [hrun, hint, hwh, hpb, hp, h]
            | some p => simp [hrun, hint, hwh, hpb, hp, h]
        | some buf =>
            by_cases hver : s.paletteVersion = s.paletteSentVersion
            · cases hp : f.payload with
              | none => simp [hrun, hint, hwh, hpb, hver, hp, h]
              | some p => simp [hrun, hint, hwh, hpb, hver, hp, h]
            · cases hp : f.payload with
              | none =>
                  simp [hrun, hint, hwh, hpb, hver, hp, h, List.filter_append,
                    WireMsg.isRender]
              | some p =>
                  simp [hrun, hint, hwh, hpb, hver, hp, h, List.filter_append,
                    WireMsg.isRender]

/-- C1.  While a render request is in flight (`busy = true`) and
the compute channel never responds, any sequence of frame callbacks
leaves the engine busy, posts no further render request to the worker
(older pending requests are never computed), and retains in the single
pending slot exactly the most recently composed request (or the
original pending value when no new request was composed). -/
theorem engine_busy_backpressure {α β : Type} (frames : List (FrameInput α))
    (s : EngineState α β) (h : s.busy = true) :
    (List.foldl FractalEngine.renderFrame s frames).busy = true ∧
    (List.foldl FractalEngine.renderFrame s frames).posted.filter
        (fun w => w.isRender) = s.posted.filter (fun w => w.isRender) ∧
    (List.foldl FractalEngine.renderFrame s frames).pendingMessage =
      (match (FractalEngine.composedRenders s frames).getLast? with
       | some m => some m
       | none => s.pendingMessage) := by
  induction frames generalizing s with
  | nil => exact ⟨h, rfl, rfl⟩
  | cons f fs ih =>
      obtain ⟨hb, hf, hp⟩ := renderFrame_busy_step s f h
      obtain ⟨ihb, ihf, ihp⟩ := ih (FractalEngine.renderFrame s f) hb
      rw [List.foldl_cons]
      refine ⟨ihb, ihf.trans hf, ?_⟩
      rw [ihp]
      have hcr : FractalEngine.composedRenders s (f :: fs) =
          (if FractalEngine.acceptedFrame s f then
            (match f.payload with
             | some p => [(⟨f.width, f.height, p⟩ : RenderMsg α)]
             | none => []) ++
              FractalEngine.composedRenders (FractalEngine.renderFrame s f) fs
           else FractalEngine.composedRenders (FractalEngine.renderFrame s f) fs) := rfl
      rw [hp, hcr]
      by_cases hacc : FractalEngine.acceptedFrame s f
      · cases hpl : f.payload with
        | none => simp [hacc, hpl]
        | some p =>
            simp only [hacc, if_true, hpl, List.singleton_append]
            cases hrest : FractalEngine.composedRenders
                (FractalEngine.renderFrame s f) fs with
            | nil => simp
            | cons r rs =>
                rw [List.getLast?_cons_cons]
                cases hlast : (r :: rs).getLast? with
                | none => simp [List.getLast?] at hlast
                | some x => simp [hlast]
      · simp [hacc]

/-- Witness for `engine_busy_backpressure`: a busy engine receiving two
accepted frames retains only the second composed request, and the wire
sees no render message. -/
theorem engine_busy_backpressure_witness :
    (⟨true, 5, true, none, 0, none, 0, -1, [], []⟩ : EngineState Unit Unit).busy
      = true ∧
    (List.foldl FractalEngine.renderFrame
      (⟨true, 5, true, none, 0, none, 0, -1, [], []⟩ : EngineState Unit Unit)
      [⟨16, 320, 200, some ()⟩, ⟨32, 320, 200, some ()⟩]).busy = true ∧
    (List.foldl FractalEngine.renderFrame
      (⟨true, 5, true, none, 0, none, 0, -1, [], []⟩ : EngineState Unit Unit)
      [⟨16, 320, 200, some ()⟩, ⟨32, 320, 200, some ()⟩]).posted.filter
        (fun w => w.isRender) = [] ∧
    (List.foldl FractalEngine.renderFrame
      (⟨true, 5, true, none, 0, none, 0, -1, [], []⟩ : EngineState Unit Unit)
      [⟨16, 320, 200, some ()⟩, ⟨32, 320, 200, some ()⟩]).pendingMessage =
      some ⟨320, 200, ()⟩ := by
  have h := engine_busy_backpressure
    [(⟨16, 320, 200, some ()⟩ : FrameInput Unit), ⟨32, 320, 200, some ()⟩]
    (⟨true, 5, true, none, 0, none, 0, -1, [], []⟩ : EngineState Unit Unit) rfl
  have hcomp : FractalEngine.composedRenders
      (⟨true, 5, true, none, 0, none, 0, -1, [], []⟩ : EngineState Unit Unit)
      [⟨16, 320, 200, some ()⟩, ⟨32, 320, 200, some ()⟩] =
      [⟨320, 200, ()⟩, ⟨320, 200, ()⟩] := by
    norm_num [FractalEngine.composedRenders, FractalEngine.acceptedFrame,
      FractalEngine.renderFrame]
  refine ⟨rfl, h.1, ?_, ?_⟩
  · rw [h.2.1]
    simp
  · rw [h.2.2, hcomp]
    rfl

/-- C2 (amended).  For every accepted frame in which a palette
buffer has been set and the palette version differs from the last
version sent, the set-palette message is posted strictly before that
frame's render request: within the frame the wire receives the
set-palette message followed (immediately, when the engine is idle) by
the render request, and when the engine is busy the render request is
only stored in the pending slot, to be posted after the set-palette
message at the earliest. -/
theorem palette_sent_before_render {α β : Type} (s : EngineState α β)
    (f : FrameInput α) (p : α) (buf : β)
    (hrun : s.running = true)
    (hint : ¬ f.timestamp - s.lastTimestamp < s.minRenderInterval)
    (hw : f.width ≠ 0) (hh : f.height ≠ 0)
    (hpl : f.payload = some p)
    (hbuf : s.paletteBuffer = some buf)
    (hver : s.paletteVersion ≠ s.paletteSentVersion) :
    (FractalEngine.renderFrame s f).posted =
      s.posted ++ [WireMsg.setPalette buf] ++
        (if s.busy then [] else [WireMsg.render ⟨f.width, f.height, p⟩]) ∧
    (s.busy = true → (FractalEngine.renderFrame s f).pendingMessage =
      some ⟨f.width, f.height, p⟩) := by
  unfold FractalEngine.renderFrame
  cases hbusy : s.busy with
  | true => simp [hrun, hint, hw, hh, hpl, hbuf, hver, hbusy]
  | false => simp [hrun, hint, hw, hh, hpl, hbuf, hver, hbusy]

/-- Witness for `palette_sent_before_render`: an idle engine with a
freshly set palette accepting one composed frame. -/
theorem palette_sent_before_render_witness :
    (⟨true, 5, false, none, 0, some (), 1, -1, [], []⟩ :
      EngineState Unit Unit).running = true ∧
    ¬ ((⟨16, 320, 200, some ()⟩ : FrameInput Unit).timestamp -
        (⟨true, 5, false, none, 0, some (), 1, -1, [], []⟩ :
          EngineState Unit Unit).lastTimestamp <
        (⟨true, 5, false, none, 0, some (), 1, -1, [], []⟩ :
          EngineState Unit Unit).minRenderInterval) ∧
    (FractalEngine.renderFrame
        (⟨true, 5, false, none, 0, some (), 1, -1, [], []⟩ :
          EngineState Unit Unit)
        ⟨16, 320, 200, some ()⟩).posted =
      (⟨true, 5, false, none, 0, some (), 1, -1, [], []⟩ :
        EngineState Unit Unit).posted ++ [WireMsg.setPalette ()] ++
        (if (⟨true, 5, false, none, 0, some (), 1, -1, [], []⟩ :
            EngineState Unit Unit).busy then []
         else [WireMsg.render ⟨320, 200, ()⟩]) := by
  have hint : ¬ ((16 : ℚ) - 0 < 5) := by norm_num
  exact ⟨rfl, hint,
    (palette_sent_before_render _ _ () () rfl hint (by norm_num) (by norm_num)
      rfl rfl (by norm_num)).1⟩

/-- C2 (counterexample).  Before any palette has been supplied the
engine's palette version (0) differs from the last version sent (-1),
yet an accepted composed frame posts its render request with no
set-palette message preceding it: the version guard additionally
requires a non-null palette buffer. -/
theorem palette_version_mismatch_counterexample :
    (⟨true, 5, false, none, 0, none, 0, -1, [], []⟩ :
        EngineState Unit Unit).paletteVersion ≠
      (⟨true, 5, false, none, 0, none, 0, -1, [], []⟩ :
        EngineState Unit Unit).paletteSentVersion ∧
    FractalEngine.acceptedFrame
      (⟨true, 5, false, none, 0, none, 0, -1, [], []⟩ : EngineState Unit Unit)
      (⟨16, 320, 200, some ()⟩ : FrameInput Unit) = true ∧
    (FractalEngine.renderFrame
        (⟨true, 5, false, none, 0, none, 0, -1, [], []⟩ : EngineState Unit Unit)
        (⟨16, 320, 200, some ()⟩ : FrameInput Unit)).posted =
      [WireMsg.render ⟨320, 200, ()⟩] := by
  refine ⟨by norm_num, ?_, ?_⟩
  · simp [FractalEngine.acceptedFrame]
    norm_num
  · simp [FractalEngine.renderFrame]
    norm_num

/-- C9.  A render message finding an empty retained palette or a
zero width/height makes the worker reply immediately with a null-buffer
render-result (no pixel computation), and the engine performs no draw
for a render-result whose buffer is null. -/
theorem worker_null_buffer_no_draw :
    (∀ (st : WorkerState) (m : WorkerRenderMsg),
      st.paletteLength = 0 ∨ m.width = 0 ∨ m.height = 0 →
      workerOnMessage st (WorkerMsg.render m) =
        (st, some ⟨m.width, m.height, none⟩)) ∧
    (∀ (α β γ : Type) (es : EngineState α β) (res : RenderResultMsg γ),
      res.buffer = none →
      (FractalEngine.handleWorkerMessage es res).draws = es.draws) := by
  constructor
  · intro st m h
    show (if st.paletteLength = 0 ∨ m.width = 0 ∨ m.height = 0 then _ else _) = _
    rw [if_pos h]
  · intro α β γ es res h
    unfold FractalEngine.handleWorkerMessage
    cases hp : es.pendingMessage with
    | none => simp [h, hp]
    | some q => simp [h, hp]

/-- Witness for `worker_null_buffer_no_draw`: an empty-palette worker
answering a 2×2 render, and an engine receiving the null-buffer
result. -/
theorem worker_null_buffer_no_draw_witness :
    ((⟨[], 0⟩ : WorkerState).paletteLength = 0 ∨
      (⟨2, 2, "mandelbrot", "classic", none, 10, ⟨0, 0, 1, 1⟩⟩ :
        WorkerRenderMsg).width = 0 ∨
      (⟨2, 2, "mandelbrot", "classic", none, 10, ⟨0, 0, 1, 1⟩⟩ :
        WorkerRenderMsg).height = 0) ∧
    (⟨2, 2, none⟩ : RenderResultMsg Unit).buffer = none ∧
    workerOnMessage (⟨[], 0⟩ : WorkerState)
      (WorkerMsg.render ⟨2, 2, "mandelbrot", "classic", none, 10, ⟨0, 0, 1, 1⟩⟩) =
      ((⟨[], 0⟩ : WorkerState), some ⟨2, 2, none⟩) ∧
    (FractalEngine.handleWorkerMessage
      (⟨true, 5, true, none, 0, none, 0, -1, [], []⟩ : EngineState Unit Unit)
      (⟨2, 2, none⟩ : RenderResultMsg Unit)).draws =
      (⟨true, 5, true, none, 0, none, 0, -1, [], []⟩ :
        EngineState Unit Unit).draws :=
  ⟨Or.inl rfl, rfl,
   worker_null_buffer_no_draw.1 _ _ (Or.inl rfl),
   worker_null_buffer_no_draw.2 Unit Unit Unit _ _ rfl⟩

theorem pickFrom_mem {α : Type} {l : List α} {r : ℚ} {a : α}
    (h : pickFrom l r = some a) : a ∈ l := by
  unfold pickFrom at h
  exact List.get?_mem h

theorem pickFrom_isSome {α : Type} (l : List α) (r : ℚ) (hne : l ≠ [])
    (h0 : 0 ≤ r) (h1 : r < 1) : ∃ a, pickFrom l r = some a := by
  have hlen : 0 < l.length := List.length_pos.mpr hne
  have hmul : r * (l.length : ℚ) < (l.length : ℚ) := by
    have hq : (0 : ℚ) < (l.length : ℚ) := by exact_mod_cast hlen
    calc r * (l.length : ℚ) < 1 * (l.length : ℚ) :=
      mul_lt_mul_of_pos_right h1 hq
    _ = (l.length : ℚ) := one_mul _
  have hfl : ⌊r * (l.length : ℚ)⌋ < (l.length : ℤ) := by
    rw [Int.floor_lt]
    exact_mod_cast hmul
  have hidx : Int.toNat ⌊r * (l.length : ℚ)⌋ < l.length := by omega
  exact ⟨l.get ⟨_, hidx⟩, List.get?_eq_get hidx⟩

/-- C5.  With the three-scene catalog, an active scene (found by
name) is replaced exactly when its elapsed time has reached its
duration; the replacement picked at scene end always carries a
different name than the scene it replaces; and the composer's
convergence check (`|log(scale/target)| < 0.08`) forces the elapsed
time to the duration, which triggers the replacement on the next
tick. -/
theorem scene_replacement_spec (st : DirectorState) (c : SceneDefinition)
    (hc : c ∈ SCENE_DEFINITIONS) (hname : st.sceneName = some c.name)
    (r : ℚ) (rest : List ℚ) (h0 : 0 ≤ r) (h1 : r < 1) :
    ((sceneMaintenance st (r :: rest)).2.2.isSome = true ↔
      st.sceneDuration ≤ st.sceneElapsed) ∧
    (∀ nx, (sceneMaintenance st (r :: rest)).2.2 = some nx →
      nx.name ≠ c.name) ∧
    (∀ scale target elapsed duration : ℝ,
      |Real.log (scale / max target 1e-12)| < 0.08 →
      convergedSceneElapsed scale target elapsed duration = duration) := by
  have hfind : SCENE_DEFINITIONS.find?
      (fun scene => some scene.name = st.sceneName) = some c := by
    rw [hname]
    fin_cases hc <;> rfl
  have hconv : ∀ scale target elapsed duration : ℝ,
      |Real.log (scale / max target 1e-12)| < 0.08 →
      convergedSceneElapsed scale target elapsed duration = duration := by
    intro scale target elapsed duration h
    unfold convergedSceneElapsed
    rw [if_pos h]
  by_cases hdur : st.sceneDuration ≤ st.sceneElapsed
  · have hne : SCENE_DEFINITIONS.filter (fun scene => scene.name ≠ c.name) ≠ [] := by
      fin_cases hc <;> simp [SCENE_DEFINITIONS]
    obtain ⟨nx, hnx⟩ := pickFrom_isSome _ r hne h0 h1
    have hpick : pickSceneDefinition (some c.name) SCENE_DEFINITIONS r = some nx := hnx
    have hres : (sceneMaintenance st (r :: rest)).2.2 = some nx := by
      unfold sceneMaintenance
      rw [hfind]
      simp only [drawRand, if_pos hdur, hpick]
    refine ⟨?_, ?_, hconv⟩
    · rw [hres]
      simp [hdur]
    · intro nx' h'
      rw [hres] at h'
      obtain rfl : nx = nx' := Option.some.inj h'
      have hmem := pickFrom_mem hnx
      rw [List.mem_filter] at hmem
      exact of_decide_eq_true hmem.2
  · have hres : (sceneMaintenance st (r :: rest)).2.2 = none := by
      unfold sceneMaintenance
      rw [hfind]
      simp only [if_neg hdur]
    refine ⟨?_, ?_, hconv⟩
    · rw [hres]
      simp [hdur]
    · intro nx' h'
      rw [hres] at h'
      exact absurd h' (by simp)

/-- Witness for `scene_replacement_spec`: the sample state's
`deep-dive` scene has outlived its duration, and the pick draw is 0. -/
theorem scene_replacement_spec_witness :
    SCENE_DEFINITIONS.getD 0 defaultSceneDefinition ∈ SCENE_DEFINITIONS ∧
    sampleDirectorState.sceneName =
      some (SCENE_DEFINITIONS.getD 0 defaultSceneDefinition).name ∧
    (0 : ℚ) ≤ 0 ∧ (0 : ℚ) < 1 ∧
    (((sceneMaintenance sampleDirectorState (0 :: [])).2.2.isSome = true ↔
        sampleDirectorState.sceneDuration ≤ sampleDirectorState.sceneElapsed) ∧
      (∀ nx, (sceneMaintenance sampleDirectorState (0 :: [])).2.2 = some nx →
        nx.name ≠ (SCENE_DEFINITIONS.getD 0 defaultSceneDefinition).name) ∧
      (∀ scale target elapsed duration : ℝ,
        |Real.log (scale / max target 1e-12)| < 0.08 →
        convergedSceneElapsed scale target elapsed duration = duration)) := by
  have hc : SCENE_DEFINITIONS.getD 0 defaultSceneDefinition ∈ SCENE_DEFINITIONS := by
    simp [SCENE_DEFINITIONS]
  exact ⟨hc, rfl, le_refl 0, by norm_num,
    scene_replacement_spec sampleDirectorState _ hc rfl 0 [] (le_refl 0)
      (by norm_num)⟩

theorem updateFocusTarget_fst_typeCooldown (st : DirectorState)
    (o : Option ℚ) (rng : List ℚ) :
    (updateFocusTarget st o rng).1.typeCooldown = st.typeCooldown := by
  unfold updateFocusTarget
  dsimp only
  cases hpf : pickFocusTarget st.fractalType st.fractalVariant (o.getD st.scale) rng with
  | mk focus rng' => cases focus <;> rfl

theorem applyScene_fst_typeCooldown (st : DirectorState) (sc : SceneDefinition)
    (rng : List ℚ) :
    (applyScene st sc rng).1.typeCooldown = FRACTAL_TYPE_COOLDOWN_SECONDS * 0.75 := by
  unfold applyScene
  dsimp only
  simp only [apply_ite (fun p : DirectorState × List ℚ => p.1.typeCooldown),
    apply_ite (fun s : DirectorState => s.typeCooldown),
    apply_ite (fun p : DirectorState × List ℚ => p.1),
    updateFocusTarget_fst_typeCooldown, ite_self]

/-- C8 (amended).  Firing palette recolor, variant change, or Julia
reseed resets that category's cooldown to its configured value (24, 32,
20 seconds); a zoom-direction flip resets its cooldown to
`ZOOM_OUT_MAX_SECONDS` when the new direction is outward and to
`ZOOM_DIRECTION_COOLDOWN_SECONDS` when inward; a fractal-type toggle
ends with `typeCooldown = 0.75 · FRACTAL_TYPE_COOLDOWN_SECONDS`, because
the scene change it triggers rescales the cooldown it had just set.
While a cooldown is positive, the palette, fractal-type, variant and
zoom-direction categories are excluded from the eligible pool; the
Julia reseed stays in the pool while cooling but executes as a no-op
(as do zoom-direction flips raced against their cooldown).  Each tick
decrements every cooldown by the elapsed seconds with floor 0. -/
theorem mutation_cooldown_spec :
    (∀ (st : DirectorState) (rng : List ℚ),
      (execMutatePalette st rng).1.paletteCooldown = PALETTE_COOLDOWN_SECONDS) ∧
    (∀ (st : DirectorState) (rng : List ℚ),
      (execMutateVariant st rng).1.variantCooldown = VARIANT_COOLDOWN_SECONDS) ∧
    (∀ (st : DirectorState) (rng : List ℚ), st.seedCooldown ≤ 0 →
      (execReseedJulia st rng).1.seedCooldown = JULIA_COOLDOWN_SECONDS) ∧
    (∀ (st : DirectorState) (rng : List ℚ), 0 < st.seedCooldown →
      execReseedJulia st rng = (st, rng, 0)) ∧
    (∀ (st : DirectorState) (rng : List ℚ), 0 < st.zoomDirectionCooldown →
      execMutateZoomDirection st rng = (st, rng, 0)) ∧
    (∀ (st : DirectorState) (rng : List ℚ), st.zoomDirectionCooldown ≤ 0 →
      (execMutateZoomDirection st rng).1.zoomDirectionCooldown =
        (if (execMutateZoomDirection st rng).1.autoZoomDirection = 1
         then ZOOM_OUT_MAX_SECONDS else ZOOM_DIRECTION_COOLDOWN_SECONDS)) ∧
    (∀ (st : DirectorState) (rng : List ℚ),
      (execToggleFractalType st rng).1.typeCooldown =
        FRACTAL_TYPE_COOLDOWN_SECONDS * 0.75) ∧
    (∀ (st : DirectorState) (pm jf : Bool),
      (MutAction.palette ∈ eligibleChoices st pm jf ↔
        pm = false ∧ st.paletteCooldown ≤ 0) ∧
      (MutAction.typeToggle ∈ eligibleChoices st pm jf ↔ st.typeCooldown ≤ 0) ∧
      (MutAction.variant ∈ eligibleChoices st pm jf ↔
        st.fractalType = "mandelbrot" ∧ st.variantCooldown ≤ 0) ∧
      (MutAction.zoomDirection ∈ eligibleChoices st pm jf ↔
        st.zoomDirectionCooldown ≤ 0) ∧
      (MutAction.juliaReseed ∈ eligibleChoices st pm jf ↔
        st.fractalType = "julia" ∧ jf = false)) ∧
    (∀ dc dt : ℚ, tickCooldown dc dt = max 0 (dc - dt)) := by
  refine ⟨?_, ?_, ?_, ?_, ?_, ?_, ?_, ?_, ?_⟩
  · intro st rng
    rfl
  · intro st rng
    rfl
  · intro st rng h
    unfold execReseedJulia
    rw [if_neg (not_lt.mpr h)]
  · intro st rng h
    unfold execReseedJulia
    rw [if_pos h]
  · intro st rng h
    unfold execMutateZoomDirection
    rw [if_pos h]
  · intro st rng h
    unfold execMutateZoomDirection
    rw [if_neg (not_lt.mpr h)]
    dsimp only
    simp only [apply_ite (fun p : DirectorState × List ℚ × ℕ =>
        p.1.zoomDirectionCooldown),
      apply_ite (fun p : DirectorState × List ℚ × ℕ => p.1.autoZoomDirection),
      ite_self]
  · intro st rng
    unfold execToggleFractalType
    dsimp only
    simp only [apply_ite (fun p : DirectorState × List ℚ × ℕ => p.1.typeCooldown),
      ite_self, applyScene_fst_typeCooldown]
  · intro st pm jf
    refine ⟨?_, ?_, ?_, ?_, ?_⟩ <;>
      · simp only [eligibleChoices, List.mem_append, List.mem_singleton,
          List.mem_cons, List.not_mem_nil]
        split_ifs <;> simp_all
  · intro dc dt
    rfl

/-- Witness for `mutation_cooldown_spec`: the sample state's expired
seed cooldown lets a Julia reseed fire and reset it to 20 seconds. -/
theorem mutation_cooldown_spec_witness :
    sampleDirectorState.seedCooldown ≤ 0 ∧
    (execReseedJulia sampleDirectorState []).1.seedCooldown =
      JULIA_COOLDOWN_SECONDS := by
  have h : sampleDirectorState.seedCooldown ≤ 0 := le_refl 0
  exact ⟨h, mutation_cooldown_spec.2.2.1 sampleDirectorState [] h⟩

/-- C8 (counterexample).  From the sample state (fractal-type
cooldown expired, hot palette/variant/direction cooldowns, zero random
stream) the mutation engine fires the fractal-type toggle — the state
actually switches to Julia — yet afterwards the type cooldown is 19.5,
not the configured `FRACTAL_TYPE_COOLDOWN_SECONDS = 26`: the scene
change triggered by the toggle rescales it to 75%. -/
theorem mutation_cooldown_counterexample :
    sampleDirectorState.fractalType = "mandelbrot" ∧
    sampleDirectorState.typeCooldown ≤ 0 ∧
    (runFractalMutation sampleDirectorState []).1.fractalType = "julia" ∧
    (runFractalMutation sampleDirectorState []).1.typeCooldown = 19.5 ∧
    (runFractalMutation sampleDirectorState []).1.typeCooldown ≠
      FRACTAL_TYPE_COOLDOWN_SECONDS := by
  refine ⟨rfl, le_refl 0, ?_⟩
  have hs1 : ("mandelbrot" : String) ≠ "julia" := by decide
  have hs2 : ("julia" : String) ≠ "mandelbrot" := by decide
  have hs3 : ("breathing-bloom" : String) ≠ "deep-dive" := by decide
  have hs4 : ("cosmic-orbit" : String) ≠ "deep-dive" := by decide
  have hs5 : ("classic" : String) ≠ "" := by decide
  have hl1 : (([1, 4, 5] : List ℕ) = []) = False := by simp
  have hl2 : ((["cubic", "perpendicular"] : List String) = []) = False := by simp
  have hrun : (runFractalMutation sampleDirectorState []).1.fractalType = "julia" ∧
      (runFractalMutation sampleDirectorState []).1.typeCooldown = 19.5 := by
    norm_num [hs1, hs2, hs3, hs4, hs5, hl1, hl2, runFractalMutation, execMutationLoop, execMutationAction,
      execToggleFractalType, execMutatePalette, execReseedJulia,
      execMutateVariant, execMutateZoomSpeed, execMutateZoomDirection,
      execShiftCore, execMutateAmbientRhythm, execRefocusDeeper,
      eligibleChoices, alignViewToType, updateFocusTarget, pickFocusTarget,
      focusPresetsFor, applyScene, sceneTargetScaleOf, pickSceneDefinition,
      pickFrom, pickFromD, drawRand, randomRange, clamp, sampleDirectorState,
      SCENE_DEFINITIONS, FRACTAL_PALETTES, PALETTE_MUTATION_CHANCE,
      PALETTE_COOLDOWN_SECONDS, VARIANT_COOLDOWN_SECONDS,
      JULIA_COOLDOWN_SECONDS, FRACTAL_TYPE_COOLDOWN_SECONDS,
      ZOOM_DIRECTION_COOLDOWN_SECONDS, ZOOM_OUT_MAX_SECONDS,
      MUTATION_INTERVAL_MIN, MUTATION_INTERVAL_MAX, AUTO_ZOOM_MIN_SPEED,
      AUTO_ZOOM_MAX_SPEED, MIN_VIEW_SCALE, MAX_VIEW_SCALE, INITIAL_VIEW_SCALE]
  refine ⟨hrun.1, hrun.2, ?_⟩
  rw [hrun.2]
  norm_num [FRACTAL_TYPE_COOLDOWN_SECONDS]

theorem normalizePaletteContrast_length (lut : List Rgb) (mr g : ℝ) :
    (normalizePaletteContrast lut mr g).length = lut.length := by
  unfold normalizePaletteContrast
  simp

/-- C6 (amended).  For every input list of at least 2 anchor colors
and requested step count `N ≥ 2`, `buildPaletteLut` returns exactly `N`
entries.  (The minimum-span guarantee of the original claim does not
hold; see the counterexample.  `N = 1` would make the JavaScript divide
by zero and fault on the resulting `NaN` index.) -/
theorem palette_lut_length (colors : List String) (steps : ℕ)
    (hc : 2 ≤ colors.length) (hs : 2 ≤ steps) :
    (buildPaletteLut colors steps).length = steps := by
  unfold buildPaletteLut
  dsimp only
  rw [normalizePaletteContrast_length, List.length_map, List.length_range]

/-- Witness for `palette_lut_length` on the two-anchor white/yellow
palette at `N = 2`. -/
theorem palette_lut_length_witness :
    2 ≤ (["#ffffff", "#ffff00"] : List String).length ∧ 2 ≤ 2 ∧
    (buildPaletteLut ["#ffffff", "#ffff00"] 2).length = 2 :=
  ⟨by norm_num, by norm_num,
   palette_lut_length ["#ffffff", "#ffff00"] 2 (by norm_num) (by norm_num)⟩

theorem hexToRgb_white : hexToRgb "#ffffff" = ⟨255, 255, 255⟩ := by decide

theorem hexToRgb_yellow : hexToRgb "#ffff00" = ⟨255, 255, 0⟩ := by decide

theorem srgbChannel_255 : srgbChannel 255 = 1 := by
  unfold srgbChannel
  dsimp only
  rw [if_neg (by norm_num : ¬ (255 : ℝ) / 255 ≤ 0.03928),
    show ((255 : ℝ) / 255 + 0.055) / 1.055 = 1 by norm_num, Real.one_rpow]

theorem srgbChannel_zero : srgbChannel 0 = 0 := by
  unfold srgbChannel
  dsimp only
  rw [if_pos (by norm_num : (0 : ℝ) / 255 ≤ 0.03928)]
  norm_num

theorem relativeLuminance_white : relativeLuminance ⟨255, 255, 255⟩ = 1 := by
  unfold relativeLuminance
  dsimp only
  rw [srgbChannel_255]
  norm_num

theorem relativeLuminance_yellow : relativeLuminance ⟨255, 255, 0⟩ = 0.9278 := by
  unfold relativeLuminance
  dsimp only
  rw [srgbChannel_255, srgbChannel_zero]
  norm_num

theorem buildLut_white_yellow :
    buildPaletteLut ["#ffffff", "#ffff00"] 2 =
      normalizePaletteContrast [⟨255, 255, 255⟩, ⟨255, 255, 0⟩] 0.95 0.9 := by
  unfold buildPaletteLut
  dsimp only
  rw [List.map_cons, List.map_cons, List.map_nil, hexToRgb_white, hexToRgb_yellow]
  norm_num [List.range_succ, lerp]

theorem normalize_white_yellow :
    normalizePaletteContrast [⟨255, 255, 255⟩, ⟨255, 255, 0⟩] 0.95 0.9 =
      [⟨255, 255, 255⟩,
       ⟨255 * ((0.4889 / 0.9278 : ℝ) ^ (0.9 : ℝ)),
        255 * ((0.4889 / 0.9278 : ℝ) ^ (0.9 : ℝ)), 0⟩] := by
  have ht1 : ((0.4889 / 0.9278 : ℝ) ^ (0.9 : ℝ)) ≤ 1 :=
    Real.rpow_le_one (by norm_num) (by norm_num) (by norm_num)
  have ht0 : 0 ≤ ((0.4889 / 0.9278 : ℝ) ^ (0.9 : ℝ)) :=
    Real.rpow_nonneg (by norm_num) _
  unfold normalizePaletteContrast
  dsimp only
  rw [List.map_cons, List.map_cons, List.map_nil, relativeLuminance_white,
    relativeLuminance_yellow]
  norm_num [jsMin, jsMax, List.enum, List.enumFrom, max_def, min_def,
    relativeLuminance_white, relativeLuminance_yellow, Real.one_rpow,
    Real.zero_rpow, Rgb.mk.injEq, ht1, ht0]
  have h1 : ¬ (1 : ℝ) ≤ (4889 / 9278 : ℝ) ^ ((9 : ℝ) / 10) :=
    not_le.mpr (Real.rpow_lt_one (by norm_num) (by norm_num) (by norm_num))
  rw [if_neg h1, if_pos (by positivity)]

theorem le_rpow_twelve_fifths {b c : ℝ} (hb : 0 ≤ b) (hc : 0 ≤ c)
    (h : c ^ 5 ≤ b ^ 12) : c ≤ b ^ (2.4 : ℝ) := by
  have hkey : (b ^ (2.4 : ℝ)) ^ (5 : ℕ) = b ^ (12 : ℕ) := by
    rw [← Real.rpow_natCast (b ^ (2.4 : ℝ)) 5, ← Real.rpow_mul hb,
      ← Real.rpow_natCast b 12]
    norm_num
  have h5 : c ^ (5 : ℕ) ≤ (b ^ (2.4 : ℝ)) ^ (5 : ℕ) := by
    rw [hkey]
    exact h
  exact le_of_pow_le_pow_left (by norm_num) (Real.rpow_nonneg hb _) h5

theorem yellow_entry_luminance_bounds :
    (0.18556 : ℝ) ≤ relativeLuminance
        ⟨255 * ((0.4889 / 0.9278 : ℝ) ^ (0.9 : ℝ)),
         255 * ((0.4889 / 0.9278 : ℝ) ^ (0.9 : ℝ)), 0⟩ ∧
    relativeLuminance
        ⟨255 * ((0.4889 / 0.9278 : ℝ) ^ (0.9 : ℝ)),
         255 * ((0.4889 / 0.9278 : ℝ) ^ (0.9 : ℝ)), 0⟩ ≤ 0.9278 := by
  have hq_le : (0.4889 / 0.9278 : ℝ) ≤ (0.4889 / 0.9278 : ℝ) ^ (0.9 : ℝ) := by
    calc (0.4889 / 0.9278 : ℝ) = (0.4889 / 0.9278 : ℝ) ^ (1 : ℝ) :=
      (Real.rpow_one _).symm
    _ ≤ (0.4889 / 0.9278 : ℝ) ^ (0.9 : ℝ) :=
      Real.rpow_le_rpow_of_exponent_ge (by norm_num) (by norm_num) (by norm_num)
  have ht1 : ((0.4889 / 0.9278 : ℝ)) ^ (0.9 : ℝ) ≤ 1 :=
    Real.rpow_le_one (by norm_num) (by norm_num) (by norm_num)
  generalize hT : ((0.4889 / 0.9278 : ℝ)) ^ ((0.9 : ℝ)) = t at hq_le ht1 ⊢
  have hqv : (0.5269 : ℝ) ≤ 0.4889 / 0.9278 := by norm_num
  have htq : (0.5269 : ℝ) ≤ t := le_trans hqv hq_le
  have hdiv : (255 : ℝ) * t / 255 = t := by
    rw [mul_div_cancel_left₀ t (by norm_num : (255 : ℝ) ≠ 0)]
  have hcond : ¬ (255 : ℝ) * t / 255 ≤ 0.03928 := by
    rw [hdiv]
    linarith
  have hbetaLo : (0.55 : ℝ) ≤ (t + 0.055) / 1.055 := by
    rw [le_div_iff (by norm_num : (0 : ℝ) < 1.055)]
    linarith
  have hbetaHi : (t + 0.055) / 1.055 ≤ 1 := by
    rw [div_le_one (by norm_num : (0 : ℝ) < 1.055)]
    linarith
  have hch_lo : (0.2 : ℝ) ≤ srgbChannel (255 * t) := by
    unfold srgbChannel
    dsimp only
    rw [if_neg hcond, hdiv]
    refine le_rpow_twelve_fifths (by linarith) (by norm_num) ?_
    calc (0.2 : ℝ) ^ 5 ≤ (0.55 : ℝ) ^ 12 := by norm_num
    _ ≤ ((t + 0.055) / 1.055) ^ 12 := pow_le_pow_left (by norm_num) hbetaLo 12
  have hch_hi : srgbChannel (255 * t) ≤ 1 := by
    unfold srgbChannel
    dsimp only
    rw [if_neg hcond, hdiv]
    exact Real.rpow_le_one (by linarith) hbetaHi (by norm_num)
  unfold relativeLuminance
  dsimp only
  rw [srgbChannel_zero]
  constructor <;> nlinarith [hch_lo, hch_hi]

/-- C6 (counterexample).  The two-anchor palette white + yellow is
not all-identical, yet the LUT built from it has a relative-luminance
span strictly below the configured minimum 0.95: the luminance
midpoint of these anchors is so high that the stretched target for the
darker entry is clamped, and the gamma-remapped yellow keeps luminance
above 0.18, so the realized span stays below 0.82. -/
theorem palette_lut_span_counterexample :
    hexToRgb "#ffffff" ≠ hexToRgb "#ffff00" ∧
    lumSpan (buildPaletteLut ["#ffffff", "#ffff00"] 2) < 0.95 := by
  refine ⟨by decide, ?_⟩
  rw [buildLut_white_yellow, normalize_white_yellow]
  unfold lumSpan
  rw [List.map_cons, List.map_cons, List.map_nil, relativeLuminance_white]
  obtain ⟨hlo, hhi⟩ := yellow_entry_luminance_bounds
  unfold jsMax jsMin
  dsimp only
  rw [List.foldl_cons, List.foldl_nil, List.foldl_cons, List.foldl_nil,
    max_eq_left (by linarith), min_eq_right (by linarith)]
  linarith
